import Mathlib

/-!
Sistema de Mantenimiento: frontend components

A shallow embedding of the four React components of the repository
(`UserManagement.js`, `PasswordChange.js`, `EquipmentForm.js`,
`EquipmentList.js`) and the properties of their handlers.

Conventions of the embedding.

* A component's `useState` cells become the fields of a state structure; a
  handler is a function from the state (and the answers of the backend to the
  requests it awaits) to the state reached once the handler and the
  un-awaited calls it started have settled, together with the ordered list of
  the effects it had on the outside world (HTTP requests, calls of the
  callbacks received as props, alerts).
* JavaScript strings are Lean strings; `.length` is `jsLength`, the number of
  UTF-16 code units.
* `process.env.REACT_APP_BACKEND_URL` is the parameter `BACKEND_URL`.
-/

namespace Mantenimiento

/-! ## JavaScript and HTTP primitives -/

/-- Number of UTF-16 code units of one character. -/
def utf16Units (c : Char) : Nat :=
  if c.toNat < 65536 then 1 else 2

/-- The JavaScript `.length` of a string: its number of UTF-16 code units. -/
def jsLength (s : String) : Nat :=
  (s.data.map utf16Units).sum

/-- HTTP methods used through axios. -/
inductive Method where
  | GET
  | POST
  | PUT
  | DELETE
  deriving DecidableEq, Repr

/-- A value stored in a request body. -/
inductive JVal where
  | str (s : String)
  | bool (b : Bool)
  deriving DecidableEq, Repr

/-- A request handed to axios: method, URL, and the body object (key order as written),
`none` for requests without a body. -/
structure Request where
  method : Method
  url : String
  body : Option (List (String × JVal))
  deriving DecidableEq, Repr

/-- What a `catch (error)` block can read from a rejected axios call:
`error.response?.data?.detail`, `none` when any link of the chain is absent. -/
structure AxiosError where
  detail : Option String
  deriving DecidableEq, Repr

/-- The callbacks the components receive as props. -/
inductive Callback where
  | onSuccess
  | onClose
  | onSubmit
  | onCancel
  deriving DecidableEq, Repr

/-- An effect of a handler on the outside world. -/
inductive Effect where
  | request (r : Request)
  | call (c : Callback)
  | alert (msg : String)
  | confirm (msg : String)
  | download (filename : String) (payload : List Nat)
  | log (msg : String)
  deriving DecidableEq, Repr

/-- The state a handler leaves and the effects it had, in order. -/
structure Outcome (σ : Type) where
  state : σ
  effects : List Effect

/-- The requests among a list of effects, in order. -/
def requestsOf : List Effect → List Request
  | [] => []
  | Effect.request r :: es => r :: requestsOf es
  | _ :: es => requestsOf es

/-- The callback calls among a list of effects, in order. -/
def callsOf : List Effect → List Callback
  | [] => []
  | Effect.call c :: es => c :: callsOf es
  | _ :: es => callsOf es

/-- The expression `v || fallback` for a string-or-absent `v`: the fallback is taken when
`v` is absent (`undefined`, `null`) or falsy (the empty string). -/
def jsOr (v : Option String) (fallback : String) : String :=
  match v with
  | some d => if d = "" then fallback else d
  | none => fallback

/-- The expression `error.response?.data?.detail || fallback` of the `catch` blocks. -/
def detailOr (e : AxiosError) (fallback : String) : String :=
  jsOr e.detail fallback

/-- Constraint validation of a form by the browser before it fires `submit`: the name of
the first `required` input, in document order, whose value is empty; `none` when every
required input is filled, and only then is the `onSubmit` handler called. -/
def firstMissing : List (String × String) → Option String
  | [] => none
  | (name, value) :: rest => if value = "" then some name else firstMissing rest

/-- The constant `API`. -/
def API (BACKEND_URL : String) : String :=
  BACKEND_URL ++ "/api"

/-! ## Accounts and the user-management component (`UserManagement.js`) -/

/-- A user account as the backend returns it; also the shape of `useAuth().user`. -/
structure Account where
  id : String
  username : String
  email : String
  full_name : String
  role : String
  is_active : Bool
  must_change_password : Bool
  last_login : Option String
  deriving DecidableEq, Repr

/-- The `formData` cell of `UserManagement`. -/
structure UserFormData where
  username : String
  email : String
  full_name : String
  role : String
  temporary_password : String
  deriving DecidableEq, Repr

/-- The `passwordData` cell of `UserManagement`. -/
structure PasswordData where
  new_password : String
  confirm_password : String
  deriving DecidableEq, Repr

/-- The state cells of `UserManagement`. -/
structure UMState where
  users : List Account
  loading : Bool
  showForm : Bool
  showPasswordModal : Bool
  selectedUser : Option Account
  formData : UserFormData
  passwordData : PasswordData
  error : String
  success : String
  deriving DecidableEq, Repr

/-- The initial value of `formData`, also the value it is reset to after a creation. -/
def emptyUserForm : UserFormData :=
  { username := "", email := "", full_name := "", role := "user", temporary_password := "" }

/-- The initial values of the `useState` cells of `UserManagement`. -/
def UMState.init : UMState :=
  { users := [], loading := true, showForm := false, showPasswordModal := false,
    selectedUser := none, formData := emptyUserForm,
    passwordData := { new_password := "", confirm_password := "" },
    error := "", success := "" }

/-- The body axios sends for `formData`. -/
def UserFormData.toBody (f : UserFormData) : List (String × JVal) :=
  [("username", .str f.username), ("email", .str f.email), ("full_name", .str f.full_name),
   ("role", .str f.role), ("temporary_password", .str f.temporary_password)]

/-- The request `axios.get(API/admin/users)`. -/
def listUsersRequest (BACKEND_URL : String) : Request :=
  { method := .GET, url := API BACKEND_URL ++ "/admin/users", body := none }

/-- The request `axios.post(API/admin/users, formData)`. -/
def createUserRequest (BACKEND_URL : String) (f : UserFormData) : Request :=
  { method := .POST, url := API BACKEND_URL ++ "/admin/users", body := some f.toBody }

/-- The request `axios.post(API/admin/users/{id}/reset-password, {new_password})`. -/
def resetPasswordRequest (BACKEND_URL : String) (id : String) (newPassword : String) : Request :=
  { method := .POST, url := API BACKEND_URL ++ "/admin/users/" ++ id ++ "/reset-password",
    body := some [("new_password", .str newPassword)] }

/-- The request `axios.put(API/admin/users/{id}, {is_active})`. -/
def toggleActiveRequest (BACKEND_URL : String) (id : String) (isActive : Bool) : Request :=
  { method := .PUT, url := API BACKEND_URL ++ "/admin/users/" ++ id,
    body := some [("is_active", .bool isActive)] }

/-- The request `axios.delete(API/admin/users/{id})`. -/
def deleteUserRequest (BACKEND_URL : String) (id : String) : Request :=
  { method := .DELETE, url := API BACKEND_URL ++ "/admin/users/" ++ id, body := none }

/-- `fetchUsers`: load the account list; `resp` is the backend's answer to the GET. -/
def fetchUsers (BACKEND_URL : String) (s : UMState)
    (resp : Except AxiosError (List Account)) : Outcome UMState :=
  let s1 := { s with loading := true }
  match resp with
  | .ok data =>
    { state := { s1 with users := data, loading := false },
      effects := [.request (listUsersRequest BACKEND_URL)] }
  | .error _ =>
    { state := { s1 with error := "Error al cargar usuarios", loading := false },
      effects := [.request (listUsersRequest BACKEND_URL)] }

/-- `handleCreateUser`: `post` is the backend's answer to the creation request, `list` its
answer to the reload of the account list that follows a successful creation. -/
def handleCreateUser (BACKEND_URL : String) (s : UMState)
    (post : Except AxiosError Unit) (list : Except AxiosError (List Account)) :
    Outcome UMState :=
  let s1 := { s with error := "", success := "" }
  if jsLength s1.formData.temporary_password < 6 then
    { state := { s1 with error := "La contraseña debe tener al menos 6 caracteres" },
      effects := [] }
  else
    match post with
    | .ok _ =>
      let s2 := { s1 with success := "Usuario creado exitosamente", showForm := false,
                          formData := emptyUserForm }
      let o := fetchUsers BACKEND_URL s2 list
      { state := o.state,
        effects := .request (createUserRequest BACKEND_URL s1.formData) :: o.effects }
    | .error e =>
      { state := { s1 with error := detailOr e "Error al crear usuario" },
        effects := [.request (createUserRequest BACKEND_URL s1.formData)] }

/-- `handleResetPassword`: `post` is the backend's answer to the reset request. With no
selected user, reading `selectedUser.id` throws inside the `try`, before any request, and
the `catch` reports the fallback message. -/
def handleResetPassword (BACKEND_URL : String) (s : UMState)
    (post : Except AxiosError Unit) : Outcome UMState :=
  let s1 := { s with error := "", success := "" }
  if s1.passwordData.new_password ≠ s1.passwordData.confirm_password then
    { state := { s1 with error := "Las contraseñas no coinciden" }, effects := [] }
  else if jsLength s1.passwordData.new_password < 6 then
    { state := { s1 with error := "La contraseña debe tener al menos 6 caracteres" },
      effects := [] }
  else
    match s1.selectedUser with
    | none =>
      { state := { s1 with error := "Error al restablecer contraseña" }, effects := [] }
    | some u =>
      let req := resetPasswordRequest BACKEND_URL u.id s1.passwordData.new_password
      match post with
      | .ok _ =>
        { state := { s1 with
            success := "Contraseña restablecida exitosamente. El usuario deberá cambiarla en su próximo login.",
            showPasswordModal := false,
            passwordData := { new_password := "", confirm_password := "" },
            selectedUser := none },
          effects := [.request req] }
      | .error e =>
        { state := { s1 with error := detailOr e "Error al restablecer contraseña" },
          effects := [.request req] }

/-- `handleToggleActive(userId, isActive)`: `put` is the backend's answer to the update,
`list` its answer to the reload that follows a successful update. -/
def handleToggleActive (BACKEND_URL : String) (s : UMState) (userId : String)
    (isActive : Bool) (put : Except AxiosError Unit)
    (list : Except AxiosError (List Account)) : Outcome UMState :=
  let req := toggleActiveRequest BACKEND_URL userId (!isActive)
  match put with
  | .ok _ =>
    let o := fetchUsers BACKEND_URL s list
    { state := { o.state with
        success := "Usuario " ++ (if !isActive then "activado" else "desactivado")
                     ++ " exitosamente" },
      effects := .request req :: o.effects }
  | .error _ =>
    { state := { s with error := "Error al cambiar estado del usuario" },
      effects := [.request req] }

/-- `handleDeleteUser(userId, username)`: `confirmed` is the answer to `window.confirm`,
`del` the backend's answer to the deletion, `list` its answer to the reload that follows. -/
def handleDeleteUser (BACKEND_URL : String) (s : UMState) (userId : String)
    (username : String) (confirmed : Bool) (del : Except AxiosError Unit)
    (list : Except AxiosError (List Account)) : Outcome UMState :=
  let ask := Effect.confirm
    ("¿Estás seguro de que quieres eliminar al usuario \"" ++ username ++ "\"?")
  if confirmed then
    let req := deleteUserRequest BACKEND_URL userId
    match del with
    | .ok _ =>
      let o := fetchUsers BACKEND_URL { s with success := "Usuario eliminado exitosamente" } list
      { state := o.state, effects := ask :: .request req :: o.effects }
    | .error e =>
      { state := { s with error := detailOr e "Error al eliminar usuario" },
        effects := [ask, .request req] }
  else
    { state := s, effects := [ask] }

/-- The condition `user?.role === 'admin'`. -/
def isAdmin (user : Option Account) : Bool :=
  match user with
  | some u => u.role = "admin"
  | none => false

/-- The effect run when `UserManagement` mounts: `fetchUsers()` under
`user?.role === 'admin'`. -/
def UserManagement.mount (BACKEND_URL : String) (user : Option Account) (s : UMState)
    (list : Except AxiosError (List Account)) : Outcome UMState :=
  if isAdmin user then fetchUsers BACKEND_URL s list else { state := s, effects := [] }

/-- Which of its three renderings `UserManagement` returns. -/
inductive UMView where
  | noPermission
  | spinner
  | main
  deriving DecidableEq, Repr

/-- The rendering `UserManagement` returns: the no-permission message under
`user?.role !== 'admin'`, else the spinner while `loading`, else the page. -/
def UserManagement.view (user : Option Account) (s : UMState) : UMView :=
  if !isAdmin user then .noPermission
  else if s.loading then .spinner
  else .main

/-- The inputs of the create-user form. -/
inductive UserField where
  | username
  | email
  | full_name
  | role
  | temporary_password
  deriving DecidableEq, Repr

/-- The inputs of the reset-password form. -/
inductive ResetField where
  | new_password
  | confirm_password
  deriving DecidableEq, Repr

/-- What the user can do on the user-management page. The backend's answers to the
requests an action awaits, and the answer to `window.confirm`, travel with the action. -/
inductive UMEvent where
  | openForm
  | closeForm
  | changeForm (field : UserField) (value : String)
  | submitCreate (post : Except AxiosError Unit) (list : Except AxiosError (List Account))
  | openReset (u : Account)
  | closeReset
  | changeReset (field : ResetField) (value : String)
  | submitReset (post : Except AxiosError Unit)
  | toggleActive (u : Account) (put : Except AxiosError Unit)
      (list : Except AxiosError (List Account))
  | deleteUser (u : Account) (confirmed : Bool) (del : Except AxiosError Unit)
      (list : Except AxiosError (List Account))

/-- The condition `u.id !== user.id` of the delete button, `user` being the caller. -/
def notSelf (user : Option Account) (u : Account) : Bool :=
  match user with
  | some me => u.id ≠ me.id
  | none => false

/-- Whether the rendering has the control of an event. Nothing is offered outside the
page itself; a row, with its reset, toggle and delete buttons, exists for the accounts of
`users`; the delete button of a row is rendered under `u.id !== user.id`; the create form
under `showForm`, with a role select of two options; the reset form under
`showPasswordModal && selectedUser`. -/
def UserManagement.offered (user : Option Account) (s : UMState) : UMEvent → Bool
  | .openForm => UserManagement.view user s = .main
  | .closeForm => UserManagement.view user s = .main && s.showForm
  | .changeForm field value =>
    UserManagement.view user s = .main && s.showForm &&
      (field ≠ .role || value = "user" || value = "admin")
  | .submitCreate _ _ => UserManagement.view user s = .main && s.showForm
  | .openReset u => UserManagement.view user s = .main && decide (u ∈ s.users)
  | .closeReset =>
    UserManagement.view user s = .main && s.showPasswordModal && s.selectedUser.isSome
  | .changeReset _ _ =>
    UserManagement.view user s = .main && s.showPasswordModal && s.selectedUser.isSome
  | .submitReset _ =>
    UserManagement.view user s = .main && s.showPasswordModal && s.selectedUser.isSome
  | .toggleActive u _ _ => UserManagement.view user s = .main && decide (u ∈ s.users)
  | .deleteUser u _ _ _ =>
    UserManagement.view user s = .main && decide (u ∈ s.users) && notSelf user u

/-- The `onChange` of an input of the create-user form. -/
def UserManagement.setFormField (f : UserFormData) : UserField → String → UserFormData
  | .username, v => { f with username := v }
  | .email, v => { f with email := v }
  | .full_name, v => { f with full_name := v }
  | .role, v => { f with role := v }
  | .temporary_password, v => { f with temporary_password := v }

/-- The `onChange` of an input of the reset-password form. -/
def UserManagement.setResetField (f : PasswordData) : ResetField → String → PasswordData
  | .new_password, v => { f with new_password := v }
  | .confirm_password, v => { f with confirm_password := v }

/-- The `required` inputs of the create-user form (the role select is not one). The
format check of the `type="email"` input is not modelled: a submit goes through whenever
the required inputs are filled. -/
def UserManagement.requiredCreateInputs (f : UserFormData) : List (String × String) :=
  [("username", f.username), ("email", f.email), ("full_name", f.full_name),
   ("temporary_password", f.temporary_password)]

/-- The `required` inputs of the reset-password form. -/
def UserManagement.requiredResetInputs (f : PasswordData) : List (String × String) :=
  [("new_password", f.new_password), ("confirm_password", f.confirm_password)]

/-- One user action on the user-management page. An action whose control is not rendered,
and a submit the browser blocks for an empty required input, change nothing. -/
def UserManagement.step (BACKEND_URL : String) (user : Option Account) (s : UMState)
    (ev : UMEvent) : Outcome UMState :=
  if UserManagement.offered user s ev then
    match ev with
    | .openForm => { state := { s with showForm := true }, effects := [] }
    | .closeForm => { state := { s with showForm := false }, effects := [] }
    | .changeForm field value =>
      { state := { s with formData := UserManagement.setFormField s.formData field value },
        effects := [] }
    | .submitCreate post list =>
      match firstMissing (UserManagement.requiredCreateInputs s.formData) with
      | some _ => { state := s, effects := [] }
      | none => handleCreateUser BACKEND_URL s post list
    | .openReset u =>
      { state := { s with selectedUser := some u, showPasswordModal := true }, effects := [] }
    | .closeReset => { state := { s with showPasswordModal := false }, effects := [] }
    | .changeReset field value =>
      { state := { s with
          passwordData := UserManagement.setResetField s.passwordData field value },
        effects := [] }
    | .submitReset post =>
      match firstMissing (UserManagement.requiredResetInputs s.passwordData) with
      | some _ => { state := s, effects := [] }
      | none => handleResetPassword BACKEND_URL s post
    | .toggleActive u put list =>
      handleToggleActive BACKEND_URL s u.id u.is_active put list
    | .deleteUser u confirmed del list =>
      handleDeleteUser BACKEND_URL s u.id u.username confirmed del list
  else
    { state := s, effects := [] }

/-- A sequence of user actions on the user-management page, the caller staying the same. -/
def UserManagement.run (BACKEND_URL : String) (user : Option Account) :
    UMState → List UMEvent → Outcome UMState
  | s, [] => { state := s, effects := [] }
  | s, ev :: evs =>
    let o := UserManagement.step BACKEND_URL user s ev
    let o2 := UserManagement.run BACKEND_URL user o.state evs
    { state := o2.state, effects := o.effects ++ o2.effects }

/-- The component from its mounting on: the mount effect from the initial cells, then a
sequence of user actions. -/
def UserManagement.session (BACKEND_URL : String) (user : Option Account)
    (list : Except AxiosError (List Account)) (evs : List UMEvent) : Outcome UMState :=
  let o := UserManagement.mount BACKEND_URL user UMState.init list
  let o2 := UserManagement.run BACKEND_URL user o.state evs
  { state := o2.state, effects := o.effects ++ o2.effects }

/-! ## The password-change dialog (`PasswordChange.js`) -/

/-- The `formData` cell of `PasswordChange`. -/
structure PCFormData where
  current_password : String
  new_password : String
  confirm_password : String
  deriving DecidableEq, Repr

/-- The state cells of `PasswordChange`. -/
structure PCState where
  formData : PCFormData
  error : String
  loading : Bool
  deriving DecidableEq, Repr

/-- The initial values of the `useState` cells of `PasswordChange`. -/
def PCState.init : PCState :=
  { formData := { current_password := "", new_password := "", confirm_password := "" },
    error := "", loading := false }

/-- The request `axios.post(API/change-password, {current_password, new_password})`. -/
def changePasswordRequest (BACKEND_URL : String) (f : PCFormData) : Request :=
  { method := .POST, url := API BACKEND_URL ++ "/change-password",
    body := some [("current_password", .str f.current_password),
                  ("new_password", .str f.new_password)] }

/-- `PasswordChange.handleSubmit`: `post` is the backend's answer to the change request. -/
def PasswordChange.handleSubmit (BACKEND_URL : String) (s : PCState)
    (post : Except AxiosError Unit) : Outcome PCState :=
  let s1 := { s with error := "", loading := true }
  if s1.formData.new_password ≠ s1.formData.confirm_password then
    { state := { s1 with error := "Las nuevas contraseñas no coinciden", loading := false },
      effects := [] }
  else if jsLength s1.formData.new_password < 6 then
    { state := { s1 with error := "La nueva contraseña debe tener al menos 6 caracteres",
                         loading := false },
      effects := [] }
  else
    match post with
    | .ok _ =>
      { state := { s1 with loading := false },
        effects := [.request (changePasswordRequest BACKEND_URL s1.formData),
                    .call .onSuccess] }
    | .error e =>
      { state := { s1 with error := detailOr e "Error al cambiar contraseña",
                           loading := false },
        effects := [.request (changePasswordRequest BACKEND_URL s1.formData)] }

/-- The expression `user?.must_change_password` as a condition. -/
def mustChange (user : Option Account) : Bool :=
  match user with
  | some u => u.must_change_password
  | none => false

/-- The inputs of the password-change form. -/
inductive PCField where
  | current_password
  | new_password
  | confirm_password
  deriving DecidableEq, Repr

/-- What the user can do on the rendered dialog. -/
inductive PCEvent where
  | change (field : PCField) (value : String)
  | submit (post : Except AxiosError Unit)
  | close
  | cancel

/-- Whether the rendered dialog has the control of an event: the close button (the cross)
and the cancel button are rendered only under `!user?.must_change_password`, the submit
button is disabled while `loading`. -/
def PasswordChange.offered (user : Option Account) (s : PCState) : PCEvent → Bool
  | .change _ _ => true
  | .submit _ => !s.loading
  | .close => !mustChange user
  | .cancel => !mustChange user

/-- The `onChange` of an input: `setFormData({...formData, [field]: value})`. -/
def PasswordChange.setField (f : PCFormData) : PCField → String → PCFormData
  | .current_password, v => { f with current_password := v }
  | .new_password, v => { f with new_password := v }
  | .confirm_password, v => { f with confirm_password := v }

/-- The three inputs of the form are `required`. -/
def PasswordChange.requiredInputs (f : PCFormData) : List (String × String) :=
  [("current_password", f.current_password), ("new_password", f.new_password),
   ("confirm_password", f.confirm_password)]

/-- One user action on the dialog. An action whose control is not rendered, and a submit
the browser blocks for an empty required input, change nothing. -/
def PasswordChange.step (BACKEND_URL : String) (user : Option Account) (s : PCState)
    (ev : PCEvent) : Outcome PCState :=
  if PasswordChange.offered user s ev then
    match ev with
    | .change field value =>
      { state := { s with formData := PasswordChange.setField s.formData field value },
        effects := [] }
    | .submit post =>
      match firstMissing (PasswordChange.requiredInputs s.formData) with
      | some _ => { state := s, effects := [] }
      | none => PasswordChange.handleSubmit BACKEND_URL s post
    | .close => { state := s, effects := [.call .onClose] }
    | .cancel => { state := s, effects := [.call .onClose] }
  else
    { state := s, effects := [] }

/-- A sequence of user actions on the dialog, the current user staying the same. -/
def PasswordChange.run (BACKEND_URL : String) (user : Option Account) :
    PCState → List PCEvent → Outcome PCState
  | s, [] => { state := s, effects := [] }
  | s, ev :: evs =>
    let o := PasswordChange.step BACKEND_URL user s ev
    let o2 := PasswordChange.run BACKEND_URL user o.state evs
    { state := o2.state, effects := o.effects ++ o2.effects }

/-! ## The equipment form (`EquipmentForm.js`) -/

/-- An equipment record as the backend returns it. The nine fields the form edits may be
absent or `null` in the object received. -/
structure Equipment where
  id : String
  area : Option String
  equipment_type : Option String
  nombre_pc : Option String
  marca : Option String
  modelo : Option String
  serie : Option String
  tipo_mantenimiento : Option String
  observaciones : Option String
  estado_equipo : Option String
  fecha : String
  tecnico_responsable : String
  deriving DecidableEq, Repr

/-- A JavaScript object whose values are strings: its keys with their values, in
insertion order. -/
abbrev FormObj := List (String × String)

/-- Property read `o[k]`: `none` is `undefined`. -/
def objGet : FormObj → String → Option String
  | [], _ => none
  | (k, v) :: rest, key => if k = key then some v else objGet rest key

/-- The object `{...o, [key]: value}`: the value of an existing key is replaced in place, a
new key is added at the end. -/
def objSet : FormObj → String → String → FormObj
  | [], key, value => [(key, value)]
  | (k, v) :: rest, key, value =>
    if k = key then (k, value) :: rest else (k, v) :: objSet rest key value

/-- The `value` an input bound to `o[k]` shows: empty when the property is absent. -/
def fieldValue (o : FormObj) (k : String) : String :=
  (objGet o k).getD ""

/-- The state cells of `EquipmentForm`. -/
structure EFState where
  formData : FormObj
  loading : Bool
  error : String
  deriving DecidableEq, Repr

/-- The initial value of `formData` for a given `initialData` prop. -/
def EquipmentForm.initFormData (initialData : Option Equipment) : FormObj :=
  [("area", jsOr (initialData.bind (·.area)) ""),
   ("equipment_type", jsOr (initialData.bind (·.equipment_type)) "cpu"),
   ("nombre_pc", jsOr (initialData.bind (·.nombre_pc)) ""),
   ("marca", jsOr (initialData.bind (·.marca)) ""),
   ("modelo", jsOr (initialData.bind (·.modelo)) ""),
   ("serie", jsOr (initialData.bind (·.serie)) ""),
   ("tipo_mantenimiento", jsOr (initialData.bind (·.tipo_mantenimiento)) "preventivo"),
   ("observaciones", jsOr (initialData.bind (·.observaciones)) ""),
   ("estado_equipo", jsOr (initialData.bind (·.estado_equipo)) "operativo")]

/-- The initial values of the `useState` cells of `EquipmentForm`. -/
def EquipmentForm.init (initialData : Option Equipment) : EFState :=
  { formData := EquipmentForm.initFormData initialData, loading := false, error := "" }

/-- The expression `new Date(v).toISOString()` for `v` a string or `undefined` (`none`).
`new Date(undefined)` is an invalid date, and so is the date of a string that does not
parse; `toISOString` throws a `RangeError` on an invalid date (`none` here). How a string
parses is the parameter `dateParse`: the ISO form of the date a string denotes, if any. -/
def newDateToISOString (dateParse : String → Option String) : Option String → Option String
  | none => none
  | some v => dateParse v

/-- The body axios sends for an object of strings. -/
def FormObj.toBody (o : FormObj) : List (String × JVal) :=
  o.map (fun kv => (kv.1, JVal.str kv.2))

/-- The request `axios.post(API/equipment, submitData)`. -/
def createEquipmentRequest (BACKEND_URL : String) (submitData : FormObj) : Request :=
  { method := .POST, url := API BACKEND_URL ++ "/equipment", body := some submitData.toBody }

/-- The request `axios.put(API/equipment/{id}, submitData)`. -/
def updateEquipmentRequest (BACKEND_URL : String) (id : String) (submitData : FormObj) :
    Request :=
  { method := .PUT, url := API BACKEND_URL ++ "/equipment/" ++ id,
    body := some submitData.toBody }

/-- `EquipmentForm.handleSubmit`: `resp` is the backend's answer to the request. The
`RangeError` of `toISOString` is thrown inside the `try`, before any request; it has no
`response`, so the `catch` reports the fallback message. -/
def EquipmentForm.handleSubmit (BACKEND_URL : String) (initialData : Option Equipment)
    (s : EFState) (dateParse : String → Option String) (resp : Except AxiosError Unit) :
    Outcome EFState :=
  let s1 := { s with loading := true, error := "" }
  match newDateToISOString dateParse (objGet s1.formData "fecha") with
  | none =>
    { state := { s1 with error := "Error al guardar el equipo", loading := false },
      effects := [] }
  | some iso =>
    let submitData := objSet s1.formData "fecha" iso
    let req :=
      match initialData with
      | some d => updateEquipmentRequest BACKEND_URL d.id submitData
      | none => createEquipmentRequest BACKEND_URL submitData
    match resp with
    | .ok _ =>
      { state := { s1 with loading := false }, effects := [.request req, .call .onSubmit] }
    | .error e =>
      { state := { s1 with error := detailOr e "Error al guardar el equipo",
                           loading := false },
        effects := [.request req] }

/-- `EquipmentForm.handleChange(field, value)`. -/
def EquipmentForm.handleChange (s : EFState) (field : String) (value : String) : EFState :=
  { s with formData := objSet s.formData field value }

/-- The four `required` inputs of the equipment form, in document order. -/
def EquipmentForm.requiredInputs (f : FormObj) : List (String × String) :=
  [("area", fieldValue f "area"), ("marca", fieldValue f "marca"),
   ("modelo", fieldValue f "modelo"), ("serie", fieldValue f "serie")]

/-- What a click on the submit button comes to. -/
inductive SubmitResult (σ : Type) where
  | blocked (input : String)
  | handled (o : Outcome σ)

/-- A submission of the equipment form: the browser validates the `required` inputs and
reports the first one that is empty, without firing `submit`; otherwise `handleSubmit`
runs. -/
def EquipmentForm.submitForm (BACKEND_URL : String) (initialData : Option Equipment)
    (s : EFState) (dateParse : String → Option String) (resp : Except AxiosError Unit) :
    SubmitResult EFState :=
  match firstMissing (EquipmentForm.requiredInputs s.formData) with
  | some input => .blocked input
  | none => .handled (EquipmentForm.handleSubmit BACKEND_URL initialData s dateParse resp)

/-- What the user can do on the equipment form. -/
inductive EFEvent where
  | change (field : String) (value : String)
  | submit (dateParse : String → Option String) (resp : Except AxiosError Unit)
  | cancel

/-- Whether the rendered form has the control of an event: text inputs for area, marca,
modelo, serie and observaciones, one for nombre_pc under `equipment_type === 'cpu'`,
three selects with three options each, a submit button disabled while `loading`, and the
cross and cancel buttons. -/
def EquipmentForm.offered (s : EFState) : EFEvent → Bool
  | .change field value =>
    if field = "equipment_type" then value ∈ ["cpu", "monitor", "impresora"]
    else if field = "tipo_mantenimiento" then value ∈ ["preventivo", "correctivo", "limpieza"]
    else if field = "estado_equipo" then
      value ∈ ["operativo", "en_reparacion", "fuera_servicio"]
    else if field = "nombre_pc" then objGet s.formData "equipment_type" = some "cpu"
    else field ∈ ["area", "marca", "modelo", "serie", "observaciones"]
  | .submit _ _ => !s.loading
  | .cancel => true

/-- One user action on the equipment form. An action whose control is not rendered, and
a submit the browser blocks, change nothing. -/
def EquipmentForm.step (BACKEND_URL : String) (initialData : Option Equipment)
    (s : EFState) (ev : EFEvent) : Outcome EFState :=
  if EquipmentForm.offered s ev then
    match ev with
    | .change field value =>
      { state := EquipmentForm.handleChange s field value, effects := [] }
    | .submit dateParse resp =>
      match EquipmentForm.submitForm BACKEND_URL initialData s dateParse resp with
      | .blocked _ => { state := s, effects := [] }
      | .handled o => o
    | .cancel => { state := s, effects := [.call .onCancel] }
  else
    { state := s, effects := [] }

/-- A sequence of user actions on the equipment form. -/
def EquipmentForm.run (BACKEND_URL : String) (initialData : Option Equipment) :
    EFState → List EFEvent → Outcome EFState
  | s, [] => { state := s, effects := [] }
  | s, ev :: evs =>
    let o := EquipmentForm.step BACKEND_URL initialData s ev
    let o2 := EquipmentForm.run BACKEND_URL initialData o.state evs
    { state := o2.state, effects := o.effects ++ o2.effects }

/-! ## The equipment list (`EquipmentList.js`) -/

/-- The `filters` cell of `EquipmentList`. -/
structure Filters where
  equipment_type : String
  area : String
  tipo_mantenimiento : String
  estado_equipo : String
  fecha_inicio : String
  fecha_fin : String
  search : String
  deriving DecidableEq, Repr

/-- The state cells of `EquipmentList`; `itemsPerPage` never changes and is a constant. -/
structure ELState where
  equipment : List Equipment
  loading : Bool
  showForm : Bool
  editingEquipment : Option Equipment
  filters : Filters
  currentPage : Int
  deriving DecidableEq, Repr

/-- The initial value of `filters`, also the value `clearFilters` sets. -/
def emptyFilters : Filters :=
  { equipment_type := "", area := "", tipo_mantenimiento := "", estado_equipo := "",
    fecha_inicio := "", fecha_fin := "", search := "" }

/-- The initial values of the `useState` cells of `EquipmentList`. -/
def ELState.init : ELState :=
  { equipment := [], loading := true, showForm := false, editingEquipment := none,
    filters := emptyFilters, currentPage := 1 }

/-- The cell `itemsPerPage`. -/
def itemsPerPage : Nat := 10

/-- The body axios sends for `filters`. -/
def Filters.toBody (f : Filters) : List (String × JVal) :=
  [("equipment_type", .str f.equipment_type), ("area", .str f.area),
   ("tipo_mantenimiento", .str f.tipo_mantenimiento), ("estado_equipo", .str f.estado_equipo),
   ("fecha_inicio", .str f.fecha_inicio), ("fecha_fin", .str f.fecha_fin),
   ("search", .str f.search)]

/-- The request `axios.get(API/equipment)`. -/
def listEquipmentRequest (BACKEND_URL : String) : Request :=
  { method := .GET, url := API BACKEND_URL ++ "/equipment", body := none }

/-- The request `axios.post(API/equipment/filter, filters)`. -/
def filterEquipmentRequest (BACKEND_URL : String) (f : Filters) : Request :=
  { method := .POST, url := API BACKEND_URL ++ "/equipment/filter", body := some f.toBody }

/-- The request `axios.post(API/export/excel, filters, {responseType: 'blob'})`. -/
def exportRequest (BACKEND_URL : String) (f : Filters) : Request :=
  { method := .POST, url := API BACKEND_URL ++ "/export/excel", body := some f.toBody }

/-- The request `axios.delete(API/equipment/{id})`. -/
def deleteEquipmentRequest (BACKEND_URL : String) (id : String) : Request :=
  { method := .DELETE, url := API BACKEND_URL ++ "/equipment/" ++ id, body := none }

/-- `fetchEquipment`: load the record list; `resp` is the backend's answer to the GET. -/
def fetchEquipment (BACKEND_URL : String) (s : ELState)
    (resp : Except AxiosError (List Equipment)) : Outcome ELState :=
  let s1 := { s with loading := true }
  match resp with
  | .ok data =>
    { state := { s1 with equipment := data, loading := false },
      effects := [.request (listEquipmentRequest BACKEND_URL)] }
  | .error _ =>
    { state := { s1 with loading := false },
      effects := [.request (listEquipmentRequest BACKEND_URL),
                  .log "Error fetching equipment:"] }

/-- `handleFilter`: `resp` is the backend's answer to the filter request. -/
def handleFilter (BACKEND_URL : String) (s : ELState)
    (resp : Except AxiosError (List Equipment)) : Outcome ELState :=
  let s1 := { s with loading := true }
  match resp with
  | .ok data =>
    { state := { s1 with equipment := data, currentPage := 1, loading := false },
      effects := [.request (filterEquipmentRequest BACKEND_URL s1.filters)] }
  | .error _ =>
    { state := { s1 with loading := false },
      effects := [.request (filterEquipmentRequest BACKEND_URL s1.filters),
                  .log "Error filtering equipment:"] }

/-- `handleDelete(id)`: `confirmed` is the answer to `window.confirm`, `del` the backend's
answer to the deletion, `list` its answer to the reload that follows. -/
def handleDelete (BACKEND_URL : String) (s : ELState) (id : String) (confirmed : Bool)
    (del : Except AxiosError Unit) (list : Except AxiosError (List Equipment)) :
    Outcome ELState :=
  let ask := Effect.confirm "¿Estás seguro de que quieres eliminar este equipo?"
  if confirmed then
    let req := deleteEquipmentRequest BACKEND_URL id
    match del with
    | .ok _ =>
      let o := fetchEquipment BACKEND_URL s list
      { state := o.state, effects := ask :: .request req :: o.effects }
    | .error _ =>
      { state := s, effects := [ask, .request req, .alert "Error al eliminar el equipo"] }
  else
    { state := s, effects := [ask] }

/-- `handleExport`: `resp` is the backend's answer to the export request, the bytes of the
spreadsheet when it succeeds. -/
def handleExport (BACKEND_URL : String) (s : ELState)
    (resp : Except AxiosError (List Nat)) : Outcome ELState :=
  match resp with
  | .ok payload =>
    { state := s,
      effects := [.request (exportRequest BACKEND_URL s.filters),
                  .download "reporte_mantenimiento.xlsx" payload] }
  | .error _ =>
    { state := s,
      effects := [.request (exportRequest BACKEND_URL s.filters),
                  .alert "Error al exportar los datos"] }

/-- `handleFormSubmit`, the `onSubmit` prop given to the form. -/
def handleFormSubmit (BACKEND_URL : String) (s : ELState)
    (list : Except AxiosError (List Equipment)) : Outcome ELState :=
  fetchEquipment BACKEND_URL { s with showForm := false, editingEquipment := none } list

/-- `handleEdit(equipment)`. -/
def handleEdit (s : ELState) (equipment : Equipment) : ELState :=
  { s with editingEquipment := some equipment, showForm := true }

/-- `clearFilters`. -/
def clearFilters (BACKEND_URL : String) (s : ELState)
    (list : Except AxiosError (List Equipment)) : Outcome ELState :=
  fetchEquipment BACKEND_URL { s with filters := emptyFilters } list

/-- `paginate(pageNumber)`. -/
def paginate (s : ELState) (pageNumber : Int) : ELState :=
  { s with currentPage := pageNumber }

/-- An index argument of `Array.prototype.slice` made absolute: a negative index counts
from the end, and the result is clamped to `0 .. len`. -/
def sliceIndex (len : Nat) (i : Int) : Nat :=
  if i < 0 then (len + i).toNat else min i.toNat len

/-- The JavaScript `l.slice(start, stop)`. -/
def jsSlice {α : Type} (l : List α) (start stop : Int) : List α :=
  let k := sliceIndex l.length start
  let e := sliceIndex l.length stop
  (l.drop k).take (e - k)

/-- The value `indexOfLastItem`. -/
def indexOfLastItem (s : ELState) : Int :=
  s.currentPage * itemsPerPage

/-- The value `indexOfFirstItem`. -/
def indexOfFirstItem (s : ELState) : Int :=
  indexOfLastItem s - itemsPerPage

/-- The value `currentItems`, the records of the page shown. -/
def currentItems (s : ELState) : List Equipment :=
  jsSlice s.equipment (indexOfFirstItem s) (indexOfLastItem s)

/-- The value `totalPages`, `Math.ceil(equipment.length / itemsPerPage)`. -/
def totalPages (s : ELState) : Nat :=
  (s.equipment.length + itemsPerPage - 1) / itemsPerPage

/-- The inputs of the filter panel. -/
inductive FilterField where
  | equipment_type
  | area
  | tipo_mantenimiento
  | estado_equipo
  | fecha_inicio
  | fecha_fin
  | search
  deriving DecidableEq, Repr

/-- The `onChange` of an input of the filter panel: `setFilters({...filters, [field]: value})`. -/
def setFilterField (f : Filters) : FilterField → String → Filters
  | .equipment_type, v => { f with equipment_type := v }
  | .area, v => { f with area := v }
  | .tipo_mantenimiento, v => { f with tipo_mantenimiento := v }
  | .estado_equipo, v => { f with estado_equipo := v }
  | .fecha_inicio, v => { f with fecha_inicio := v }
  | .fecha_fin, v => { f with fecha_fin := v }
  | .search, v => { f with search := v }

/-- What the user can do on the equipment page. The form is a child component with cells
of its own: an action on the form travels with the state `child` the form is in. -/
inductive ELEvent where
  | newEquipment
  | changeFilter (field : FilterField) (value : String)
  | applyFilter (resp : Except AxiosError (List Equipment))
  | clearFilters (list : Except AxiosError (List Equipment))
  | exportExcel (resp : Except AxiosError (List Nat))
  | edit (item : Equipment)
  | delete (item : Equipment) (confirmed : Bool) (del : Except AxiosError Unit)
      (list : Except AxiosError (List Equipment))
  | prevPage
  | nextPage
  | gotoPage (index : Nat)
  | form (child : EFState) (ev : EFEvent) (list : Except AxiosError (List Equipment))

/-- Whether an event is a click on a button of a row: edit or delete. -/
def ELEvent.isRowAction : ELEvent → Bool
  | .edit _ => true
  | .delete _ _ _ _ => true
  | _ => false

/-- Whether the rendering has the control of an event. While `loading` only the spinner is
rendered. The selects of the filter panel offer the empty value and three options each.
The edit and delete buttons of a row are rendered under `user?.role === 'admin'`, and a
row exists for the records of `currentItems`. The pagination bar is rendered under
`totalPages > 1`, its previous button disabled on page 1, its next button on the last
page, with one numbered button per page. The form is rendered under `showForm`. -/
def EquipmentList.offered (user : Option Account) (s : ELState) : ELEvent → Bool
  | .newEquipment => !s.loading
  | .changeFilter field value =>
    !s.loading &&
      (match field with
       | .equipment_type => value ∈ ["", "cpu", "monitor", "impresora"]
       | .tipo_mantenimiento => value ∈ ["", "preventivo", "correctivo", "limpieza"]
       | .estado_equipo => value ∈ ["", "operativo", "en_reparacion", "fuera_servicio"]
       | _ => true)
  | .applyFilter _ => !s.loading
  | .clearFilters _ => !s.loading
  | .exportExcel _ => !s.loading
  | .edit item => !s.loading && isAdmin user && decide (item ∈ currentItems s)
  | .delete item _ _ _ => !s.loading && isAdmin user && decide (item ∈ currentItems s)
  | .prevPage => !s.loading && decide (totalPages s > 1) && decide (s.currentPage ≠ 1)
  | .nextPage =>
    !s.loading && decide (totalPages s > 1) && decide (s.currentPage ≠ (totalPages s : Int))
  | .gotoPage index => !s.loading && decide (totalPages s > 1) && decide (index < totalPages s)
  | .form _ _ _ => !s.loading && s.showForm

/-- An action on the form, seen from the page: the form, whose `initialData` is
`editingEquipment`, handles it; its requests go out, and its calls of `onSubmit` and
`onCancel` run `handleFormSubmit` and the closing of the form. -/
def EquipmentList.formEvent (BACKEND_URL : String) (s : ELState) (child : EFState)
    (ev : EFEvent) (list : Except AxiosError (List Equipment)) : Outcome ELState :=
  let o := EquipmentForm.step BACKEND_URL s.editingEquipment child ev
  let reqs := (requestsOf o.effects).map Effect.request
  if Callback.onSubmit ∈ callsOf o.effects then
    let o2 := handleFormSubmit BACKEND_URL s list
    { state := o2.state, effects := reqs ++ o2.effects }
  else if Callback.onCancel ∈ callsOf o.effects then
    { state := { s with showForm := false, editingEquipment := none }, effects := reqs }
  else
    { state := s, effects := reqs }

/-- One user action on the equipment page. An action whose control is not rendered
changes nothing. -/
def EquipmentList.step (BACKEND_URL : String) (user : Option Account) (s : ELState)
    (ev : ELEvent) : Outcome ELState :=
  if EquipmentList.offered user s ev then
    match ev with
    | .newEquipment => { state := { s with showForm := true }, effects := [] }
    | .changeFilter field value =>
      { state := { s with filters := setFilterField s.filters field value }, effects := [] }
    | .applyFilter resp => handleFilter BACKEND_URL s resp
    | .clearFilters list => clearFilters BACKEND_URL s list
    | .exportExcel resp => handleExport BACKEND_URL s resp
    | .edit item => { state := handleEdit s item, effects := [] }
    | .delete item confirmed del list => handleDelete BACKEND_URL s item.id confirmed del list
    | .prevPage => { state := paginate s (s.currentPage - 1), effects := [] }
    | .nextPage => { state := paginate s (s.currentPage + 1), effects := [] }
    | .gotoPage index => { state := paginate s (index + 1), effects := [] }
    | .form child fev list => EquipmentList.formEvent BACKEND_URL s child fev list
  else
    { state := s, effects := [] }

/-- A sequence of user actions on the equipment page, the caller staying the same. -/
def EquipmentList.run (BACKEND_URL : String) (user : Option Account) :
    ELState → List ELEvent → Outcome ELState
  | s, [] => { state := s, effects := [] }
  | s, ev :: evs =>
    let o := EquipmentList.step BACKEND_URL user s ev
    let o2 := EquipmentList.run BACKEND_URL user o.state evs
    { state := o2.state, effects := o.effects ++ o2.effects }

/-- The component from its mounting on: the mount effect, `fetchEquipment()` whoever the
caller is, from the initial cells, then a sequence of user actions. -/
def EquipmentList.session (BACKEND_URL : String) (user : Option Account)
    (list : Except AxiosError (List Equipment)) (evs : List ELEvent) : Outcome ELState :=
  let o := fetchEquipment BACKEND_URL ELState.init list
  let o2 := EquipmentList.run BACKEND_URL user o.state evs
  { state := o2.state, effects := o.effects ++ o2.effects }

/-! ## The account store and the credential lifecycle (backend)

The backend that keeps the accounts is not among the sources: only its caller,
`UserManagement.js`, is. The definitions of this section follow the specification. -/

/-- Modelled from the spec: a stored user account (section 3, "User Account"), the account
record with its `password_hash`; the account store is kept by the backend, which is
missing from the sources. -/
structure StoredAccount where
  account : Account
  password_hash : String
  deriving DecidableEq, Repr

/-- Modelled from the spec: the failures of section 7, `ValidationError` with the field it
names, `AuthError` and `NotFoundError`; the backend that raises them is missing from the
sources. -/
inductive ApiError where
  | validation (field : String)
  | auth
  | notFound
  deriving DecidableEq, Repr

/-- Modelled from the spec: the human-readable reason a failure carries (section 7), which
the backend, missing from the sources, puts in `detail`. -/
def ApiError.detail : ApiError → String
  | .validation field => "ValidationError: " ++ field
  | .auth => "AuthError"
  | .notFound => "NotFoundError"

/-- Modelled from the spec: the Session/Role Gate (sections 4.5 and 6) for the account
operations of the backend, missing from the sources: they are admin-only. -/
def gateAllowsAccountOps (caller : Option Account) : Bool :=
  match caller with
  | some c => c.role = "admin"
  | none => false

/-- Modelled from the spec: `issue_temporary(account_fields, temp_password)` of the
backend (section 4.3), missing from the sources: admin-only; requires
`temp_password.length >= 6`, failing with `ValidationError` otherwise; `username` is unique
(section 3); stores a one-way hash of the temporary password and sets
`must_change_password = true`; `last_login` is null. What the specification leaves open is
a parameter: the hash function, the id assigned and the initial `is_active`. -/
def issueTemporary (hash : String → String) (newId : String) (active : Bool)
    (caller : Option Account) (store : List StoredAccount) (f : UserFormData) :
    Except ApiError (List StoredAccount) :=
  if !gateAllowsAccountOps caller then .error .auth
  else if jsLength f.temporary_password < 6 then .error (.validation "temporary_password")
  else if store.any (fun a => a.account.username = f.username) then
    .error (.validation "username")
  else
    .ok (store ++
      [{ account :=
           { id := newId, username := f.username, email := f.email, full_name := f.full_name,
             role := f.role, is_active := active, must_change_password := true,
             last_login := none },
         password_hash := hash f.temporary_password }])

/-- Modelled from the spec: `admin_reset(account_id, new_password)` of the backend
(section 4.3), missing from the sources: admin-only; no current password is asked for;
fails with `ValidationError` if `new_password.length < 6`, with `NotFoundError` if the id
is absent (section 7); on success replaces the hash and forces
`must_change_password = true`. -/
def adminReset (hash : String → String) (caller : Option Account)
    (store : List StoredAccount) (id : String) (newPassword : String) :
    Except ApiError (List StoredAccount) :=
  if !gateAllowsAccountOps caller then .error .auth
  else if jsLength newPassword < 6 then .error (.validation "new_password")
  else if !store.any (fun a => a.account.id = id) then .error .notFound
  else
    .ok (store.map (fun a =>
      if a.account.id = id then
        { account := { a.account with must_change_password := true },
          password_hash := hash newPassword }
      else a))

/-- Modelled from the spec: the account list the backend, missing from the sources,
returns (section 6, "Account list": admin-only, shapes per section 3). -/
def serveListUsers (caller : Option Account) (store : List StoredAccount) :
    Except AxiosError (List Account) :=
  if gateAllowsAccountOps caller then .ok (store.map (·.account))
  else .error { detail := some ApiError.auth.detail }

/-- Modelled from the spec: the answer axios gets for an operation of the backend, missing
from the sources: success, or the rejection with the reason of the failure in `detail`
(section 7). -/
def toAxios {α : Type} (r : Except ApiError α) : Except AxiosError Unit :=
  match r with
  | .ok _ => .ok ()
  | .error e => .error { detail := some e.detail }

/-- Modelled from the spec: the store an operation of the backend, missing from the
sources, leaves: the new one on success, the old one on failure (section 5: no operation
is partially applied). -/
def storeAfter (store : List StoredAccount) (r : Except ApiError (List StoredAccount)) :
    List StoredAccount :=
  match r with
  | .ok store2 => store2
  | .error _ => store

/-- Modelled from the spec: the reset-password endpoint of the backend, missing from the
sources, serving `handleResetPassword`: the reset request, if the handler sends it, is
served by `adminReset` on behalf of `caller`. The result is what the handler did and the
account store afterwards. -/
def resetPasswordAgainstBackend (BACKEND_URL : String) (hash : String → String)
    (caller : Option Account) (store : List StoredAccount) (s : UMState) :
    Outcome UMState × List StoredAccount :=
  match s.selectedUser with
  | none => (handleResetPassword BACKEND_URL s (.ok ()), store)
  | some u =>
    let r := adminReset hash caller store u.id s.passwordData.new_password
    let o := handleResetPassword BACKEND_URL s (toAxios r)
    if resetPasswordRequest BACKEND_URL u.id s.passwordData.new_password
        ∈ requestsOf o.effects then
      (o, storeAfter store r)
    else (o, store)

/-- Modelled from the spec: the account endpoints of the backend, missing from the
sources, serving `handleCreateUser`: the creation request, if the handler sends it, is
served by `issueTemporary` on behalf of `caller`, and the reload of the list that follows
a success by `serveListUsers` on the store the creation left. The result is what the
handler did and the account store afterwards. -/
def createUserAgainstBackend (BACKEND_URL : String) (hash : String → String)
    (newId : String) (active : Bool) (caller : Option Account)
    (store : List StoredAccount) (s : UMState) : Outcome UMState × List StoredAccount :=
  let r := issueTemporary hash newId active caller store s.formData
  let o := handleCreateUser BACKEND_URL s (toAxios r)
    (serveListUsers caller (storeAfter store r))
  if createUserRequest BACKEND_URL s.formData ∈ requestsOf o.effects then
    (o, storeAfter store r)
  else (o, store)

/-! ## Concrete inputs -/

/-- An administrator account. -/
def adminAna : Account :=
  { id := "u1", username := "ana", email := "ana@example.com", full_name := "Ana Ruiz",
    role := "admin", is_active := true, must_change_password := false, last_login := none }

/-- A standard account that still has its temporary password. -/
def userLuis : Account :=
  { id := "u2", username := "luis", email := "luis@example.com", full_name := "Luis Paz",
    role := "user", is_active := true, must_change_password := true, last_login := none }

/-- The user-management page with the create form open and filled in, the temporary
password being `pw`. -/
def createFormWith (pw : String) : UMState :=
  { UMState.init with
    users := [adminAna], loading := false, showForm := true,
    formData := { username := "luis", email := "luis@example.com", full_name := "Luis Paz",
                  role := "user", temporary_password := pw } }

/-- The user-management page with the reset form open for `userLuis`. -/
def resetFormWith (newPassword confirmPassword : String) : UMState :=
  { UMState.init with
    users := [adminAna, userLuis], loading := false, showPasswordModal := true,
    selectedUser := some userLuis,
    passwordData := { new_password := newPassword, confirm_password := confirmPassword } }

/-- The password-change dialog filled in. -/
def changeFormWith (current newPassword confirmPassword : String) : PCState :=
  { PCState.init with
    formData := { current_password := current, new_password := newPassword,
                  confirm_password := confirmPassword } }

/-- The user-management page of an administrator, loaded with two accounts. -/
def loadedUsersPage : UMState :=
  { UMState.init with users := [adminAna, userLuis], loading := false }

/-- An equipment record. -/
def pcSistemas : Equipment :=
  { id := "e1", area := some "Sistemas", equipment_type := some "cpu",
    nombre_pc := some "PC-SISTEMAS-01", marca := some "HP", modelo := some "Pavilion g6",
    serie := some "ABC123", tipo_mantenimiento := some "preventivo", observaciones := none,
    estado_equipo := some "operativo", fecha := "2024-05-01T10:00:00.000Z",
    tecnico_responsable := "ana" }

/-- The equipment page loaded with one record. -/
def loadedEquipmentPage : ELState :=
  { ELState.init with equipment := [pcSistemas], loading := false }

/-- The creation form filled in with the record of the specification's scenario, through
the form's own inputs. -/
def filledCreateForm : EFState :=
  (EquipmentForm.run "http://h" none (EquipmentForm.init none)
    [.change "area" "Sistemas", .change "marca" "HP", .change "modelo" "Pavilion g6",
     .change "serie" "ABC123"]).state

/-- A date parser that accepts every string and yields one fixed date. -/
def anyDate : String → Option String :=
  fun _ => some "2024-05-01T00:00:00.000Z"

/-- The record `pcSistemas` under another id. -/
def recordWithId (id : String) : Equipment :=
  { pcSistemas with id := id }

/-- Eleven records, `e1` to `e11`. -/
def elevenRecords : List Equipment :=
  ["e1", "e2", "e3", "e4", "e5", "e6", "e7", "e8", "e9", "e10", "e11"].map recordWithId

/-- The first ten of the eleven records: what is left once `e11` is deleted. -/
def tenRecords : List Equipment :=
  ["e1", "e2", "e3", "e4", "e5", "e6", "e7", "e8", "e9", "e10"].map recordWithId

/-- The equipment page loaded with the eleven records, on page 1. -/
def elevenLoaded : ELState :=
  { ELState.init with equipment := elevenRecords, loading := false }

/-- The page an administrator is left with after loading the eleven records, going to
page 2 and deleting `e11`, the only record of that page, the backend then listing the ten
records left. -/
def lastPageEmptied : ELState :=
  (EquipmentList.session "http://h" (some adminAna) (.ok elevenRecords)
    [.nextPage, .delete (recordWithId "e11") true (.ok ()) (.ok tenRecords)]).state

/-- A stand-in for the one-way hash. -/
def toyHash : String → String :=
  fun p => "hash:" ++ p

/-- The account of `userLuis` once he has changed his temporary password. -/
def luisSettled : Account :=
  { userLuis with must_change_password := false }

/-- An account store with two accounts, neither of which has to change its password. -/
def accountStore : List StoredAccount :=
  [{ account := adminAna, password_hash := "hash:secreto-ana" },
   { account := luisSettled, password_hash := "hash:secreto-luis" }]

/-- An account store with the administrator alone. -/
def adminOnlyStore : List StoredAccount :=
  [{ account := adminAna, password_hash := "hash:secreto-ana" }]

/-- The user-management page with the reset form open for the account `u`. -/
def resetFormFor (u : Account) (newPassword confirmPassword : String) : UMState :=
  { UMState.init with
    users := [adminAna, luisSettled], loading := false, showPasswordModal := true,
    selectedUser := some u,
    passwordData := { new_password := newPassword, confirm_password := confirmPassword } }

/-! ## Theorems -/

/-- The calls of a concatenation. -/
theorem callsOf_append (a b : List Effect) : callsOf (a ++ b) = callsOf a ++ callsOf b := by
  induction a with
  | nil => rfl
  | cons e es ih => cases e <;> simp [callsOf, ih]

/-- The requests of a concatenation. -/
theorem requestsOf_append (a b : List Effect) :
    requestsOf (a ++ b) = requestsOf a ++ requestsOf b := by
  induction a with
  | nil => rfl
  | cons e es ih => cases e <;> simp [requestsOf, ih]

/-- A step of the forced dialog calls no callback, or is an accepted submission. -/
theorem PasswordChange_step_calls_forced (BACKEND_URL : String) (u : Account)
    (hflag : u.must_change_password = true) (s : PCState) (ev : PCEvent) :
    callsOf (PasswordChange.step BACKEND_URL (some u) s ev).effects = [] ∨
    (ev = PCEvent.submit (.ok ()) ∧
      (PasswordChange.step BACKEND_URL (some u) s ev).effects
        = [.request (changePasswordRequest BACKEND_URL s.formData), .call .onSuccess]) := by
  cases ev with
  | change f v => simp [PasswordChange.step, PasswordChange.offered, callsOf]
  | close => simp [PasswordChange.step, PasswordChange.offered, mustChange, hflag, callsOf]
  | cancel => simp [PasswordChange.step, PasswordChange.offered, mustChange, hflag, callsOf]
  | submit post =>
    unfold PasswordChange.step PasswordChange.offered
    by_cases hl : s.loading = true
    · simp [hl, callsOf]
    · simp only [hl, Bool.not_false, Bool.not_true, if_true]
      cases hm : firstMissing (PasswordChange.requiredInputs s.formData) with
      | some _ => simp [callsOf]
      | none =>
        simp only []
        unfold PasswordChange.handleSubmit
        by_cases h1 : s.formData.new_password = s.formData.confirm_password
        · by_cases h2 : jsLength s.formData.confirm_password < 6
          · simp [h1, h2, callsOf]
          · cases post with
            | ok x => right; simp [h1, h2]
            | error e => left; simp [h1, h2, callsOf]
        · simp [h1, callsOf]

/-- C1: `handleCreateUser` issues the account-creation request exactly when the temporary
password has at least 6 code units; below 6 it sets the validation error, has no effect at
all (so no request), and leaves the user list and the form fields as they were; with
exactly 6 the creation request is the first request sent. -/
theorem handleCreateUser_sends_iff_length (BACKEND_URL : String) (s : UMState)
    (post : Except AxiosError Unit) (list : Except AxiosError (List Account)) :
    (createUserRequest BACKEND_URL s.formData ∈
        requestsOf (handleCreateUser BACKEND_URL s post list).effects
      ↔ 6 ≤ jsLength s.formData.temporary_password) ∧
    (jsLength s.formData.temporary_password < 6 →
      (handleCreateUser BACKEND_URL s post list).state.error
          = "La contraseña debe tener al menos 6 caracteres" ∧
      (handleCreateUser BACKEND_URL s post list).effects = [] ∧
      (handleCreateUser BACKEND_URL s post list).state.users = s.users ∧
      (handleCreateUser BACKEND_URL s post list).state.formData = s.formData) ∧
    (jsLength s.formData.temporary_password = 6 →
      (requestsOf (handleCreateUser BACKEND_URL s post list).effects).head?
        = some (createUserRequest BACKEND_URL s.formData)) := by
  refine ⟨?_, ?_, ?_⟩
  · by_cases h : jsLength s.formData.temporary_password < 6
    · simp [handleCreateUser, h, requestsOf]
    · cases post <;> cases list <;>
        simp [handleCreateUser, h, requestsOf, fetchUsers, Nat.le_of_not_lt h]
  · intro h
    simp [handleCreateUser, h]
  · intro h
    have h6 : ¬ jsLength s.formData.temporary_password < 6 := by omega
    cases post <;> cases list <;> simp [handleCreateUser, h6, requestsOf, fetchUsers]

/-- Witness of C1: the password `abc12` is rejected without a request, and with `abc123`
the creation request goes out. -/
theorem handleCreateUser_sends_iff_length_witness :
    ((handleCreateUser "http://h" (createFormWith "abc12") (.ok ()) (.ok [])).state.error
        = "La contraseña debe tener al menos 6 caracteres" ∧
      (handleCreateUser "http://h" (createFormWith "abc12") (.ok ()) (.ok [])).effects = [] ∧
      (handleCreateUser "http://h" (createFormWith "abc12") (.ok ()) (.ok [])).state.users
        = (createFormWith "abc12").users ∧
      (handleCreateUser "http://h" (createFormWith "abc12") (.ok ()) (.ok [])).state.formData
        = (createFormWith "abc12").formData) ∧
    (requestsOf (handleCreateUser "http://h" (createFormWith "abc123") (.ok ())
        (.ok [])).effects).head?
      = some (createUserRequest "http://h" (createFormWith "abc123").formData) :=
  ⟨(handleCreateUser_sends_iff_length "http://h" (createFormWith "abc12") (.ok ())
      (.ok [])).2.1 (by decide),
   (handleCreateUser_sends_iff_length "http://h" (createFormWith "abc123") (.ok ())
      (.ok [])).2.2 (by decide)⟩

/-- C2: `PasswordChange.handleSubmit` sends the change-password request exactly when the
new password equals its confirmation and has at least 6 code units; otherwise it sets an
error, has no effect at all (no request, no call of `onSuccess`); when both checks fail the
mismatch error is the one reported. -/
theorem PasswordChange_handleSubmit_sends_iff (BACKEND_URL : String) (s : PCState)
    (post : Except AxiosError Unit) :
    (changePasswordRequest BACKEND_URL s.formData ∈
        requestsOf (PasswordChange.handleSubmit BACKEND_URL s post).effects
      ↔ s.formData.new_password = s.formData.confirm_password ∧
        6 ≤ jsLength s.formData.new_password) ∧
    (¬ (s.formData.new_password = s.formData.confirm_password ∧
        6 ≤ jsLength s.formData.new_password) →
      (PasswordChange.handleSubmit BACKEND_URL s post).state.error ≠ "" ∧
      (PasswordChange.handleSubmit BACKEND_URL s post).effects = []) ∧
    (s.formData.new_password ≠ s.formData.confirm_password →
      (PasswordChange.handleSubmit BACKEND_URL s post).state.error
        = "Las nuevas contraseñas no coinciden") := by
  refine ⟨?_, ?_, ?_⟩
  · by_cases h1 : s.formData.new_password = s.formData.confirm_password
    · by_cases h2 : jsLength s.formData.new_password < 6
      · have h3 : jsLength s.formData.confirm_password < 6 := h1 ▸ h2
        simp [PasswordChange.handleSubmit, h1, h2, h3, requestsOf]
      · have h3 : ¬ jsLength s.formData.confirm_password < 6 := h1 ▸ h2
        cases post <;>
          simp [PasswordChange.handleSubmit, h1, h3, requestsOf]
        all_goals omega
    · simp [PasswordChange.handleSubmit, h1, requestsOf]
  · intro h
    by_cases h1 : s.formData.new_password = s.formData.confirm_password
    · have h2 : jsLength s.formData.new_password < 6 := by
        by_contra h2
        exact h ⟨h1, by omega⟩
      have h3 : jsLength s.formData.confirm_password < 6 := h1 ▸ h2
      simp [PasswordChange.handleSubmit, h1, h3]
    · simp [PasswordChange.handleSubmit, h1]
  · intro h1
    simp [PasswordChange.handleSubmit, h1]

/-- Witness of C2: with `abc` and `abd`, which differ and are too short, nothing is sent
and the mismatch is what is reported. -/
theorem PasswordChange_handleSubmit_sends_iff_witness :
    ((PasswordChange.handleSubmit "http://h" (changeFormWith "old-pw" "abc" "abd")
        (.ok ())).state.error ≠ "" ∧
      (PasswordChange.handleSubmit "http://h" (changeFormWith "old-pw" "abc" "abd")
        (.ok ())).effects = []) ∧
    (PasswordChange.handleSubmit "http://h" (changeFormWith "old-pw" "abc" "abd")
        (.ok ())).state.error = "Las nuevas contraseñas no coinciden" :=
  ⟨(PasswordChange_handleSubmit_sends_iff "http://h" (changeFormWith "old-pw" "abc" "abd")
      (.ok ())).2.1 (by decide),
   (PasswordChange_handleSubmit_sends_iff "http://h" (changeFormWith "old-pw" "abc" "abd")
      (.ok ())).2.2 (by decide)⟩

/-- C3: with an account selected, `handleResetPassword` sends the reset-password request
exactly when the new password equals its confirmation and has at least 6 code units; every
request it sends is that one, whose body holds the key `new_password` and nothing else (no
current password is asked for or sent); on a rejected input it has no effect at all and
leaves the modal flag, the selected user and the password fields as they were. -/
theorem handleResetPassword_sends_iff (BACKEND_URL : String) (s : UMState) (u : Account)
    (post : Except AxiosError Unit) (hsel : s.selectedUser = some u) :
    (resetPasswordRequest BACKEND_URL u.id s.passwordData.new_password ∈
        requestsOf (handleResetPassword BACKEND_URL s post).effects
      ↔ s.passwordData.new_password = s.passwordData.confirm_password ∧
        6 ≤ jsLength s.passwordData.new_password) ∧
    (∀ r ∈ requestsOf (handleResetPassword BACKEND_URL s post).effects,
      r = resetPasswordRequest BACKEND_URL u.id s.passwordData.new_password ∧
      r.body = some [("new_password", JVal.str s.passwordData.new_password)]) ∧
    (¬ (s.passwordData.new_password = s.passwordData.confirm_password ∧
        6 ≤ jsLength s.passwordData.new_password) →
      (handleResetPassword BACKEND_URL s post).effects = [] ∧
      (handleResetPassword BACKEND_URL s post).state.error ≠ "" ∧
      (handleResetPassword BACKEND_URL s post).state.showPasswordModal
        = s.showPasswordModal ∧
      (handleResetPassword BACKEND_URL s post).state.selectedUser = s.selectedUser ∧
      (handleResetPassword BACKEND_URL s post).state.passwordData = s.passwordData) := by
  by_cases h1 : s.passwordData.new_password = s.passwordData.confirm_password
  · by_cases h2 : jsLength s.passwordData.new_password < 6
    · have h3 : jsLength s.passwordData.confirm_password < 6 := h1 ▸ h2
      simp [handleResetPassword, h1, h3, requestsOf]
    · have h3 : ¬ jsLength s.passwordData.confirm_password < 6 := h1 ▸ h2
      have h4 : 6 ≤ jsLength s.passwordData.confirm_password := by omega
      cases post <;>
        simp [handleResetPassword, h1, h3, h4, hsel, requestsOf, resetPasswordRequest]
  · simp [handleResetPassword, h1, requestsOf]

/-- Witness of C3: for the selected account `userLuis`, the pair `abc12`, `abc12` is
rejected with the modal, the selection and the fields untouched. -/
theorem handleResetPassword_sends_iff_witness :
    (handleResetPassword "http://h" (resetFormWith "abc12" "abc12") (.ok ())).effects = [] ∧
    (handleResetPassword "http://h" (resetFormWith "abc12" "abc12") (.ok ())).state.error
      ≠ "" ∧
    (handleResetPassword "http://h" (resetFormWith "abc12" "abc12")
      (.ok ())).state.showPasswordModal = (resetFormWith "abc12" "abc12").showPasswordModal ∧
    (handleResetPassword "http://h" (resetFormWith "abc12" "abc12")
      (.ok ())).state.selectedUser = (resetFormWith "abc12" "abc12").selectedUser ∧
    (handleResetPassword "http://h" (resetFormWith "abc12" "abc12")
      (.ok ())).state.passwordData = (resetFormWith "abc12" "abc12").passwordData :=
  (handleResetPassword_sends_iff "http://h" (resetFormWith "abc12" "abc12") userLuis
    (.ok ()) rfl).2.2 (by decide)

/-- The forced dialog only ever calls `onSuccess`. -/
theorem PasswordChange_run_calls_forced (BACKEND_URL : String) (u : Account)
    (hflag : u.must_change_password = true) (evs : List PCEvent) :
    ∀ s : PCState, ∀ c ∈ callsOf (PasswordChange.run BACKEND_URL (some u) s evs).effects,
      c = Callback.onSuccess := by
  induction evs with
  | nil => intro s c hc; simp [PasswordChange.run, callsOf] at hc
  | cons ev evs ih =>
    intro s c hc
    simp only [PasswordChange.run, callsOf_append, List.mem_append] at hc
    rcases hc with hc | hc
    · rcases PasswordChange_step_calls_forced BACKEND_URL u hflag s ev with h | ⟨_, h⟩
      · rw [h] at hc; simp at hc
      · rw [h] at hc; simpa [callsOf] using hc
    · exact ih _ c hc

/-- C4: while the current user's `must_change_password` is true the dialog renders neither
the close nor the cancel button; whatever the user does, `onClose` is never called and
the only callback ever called is `onSuccess`; and an action that calls a callback is a
submission whose change-password request went out and was accepted. When the flag is not
set, both buttons are rendered and each calls `onClose`. -/
theorem PasswordChange_forced_offers_no_exit (BACKEND_URL : String) (u : Account)
    (s : PCState) (evs : List PCEvent) (hflag : u.must_change_password = true) :
    PasswordChange.offered (some u) s .close = false ∧
    PasswordChange.offered (some u) s .cancel = false ∧
    Callback.onClose ∉ callsOf (PasswordChange.run BACKEND_URL (some u) s evs).effects ∧
    (∀ c ∈ callsOf (PasswordChange.run BACKEND_URL (some u) s evs).effects,
      c = Callback.onSuccess) ∧
    (∀ ev, callsOf (PasswordChange.step BACKEND_URL (some u) s ev).effects ≠ [] →
      ev = PCEvent.submit (.ok ()) ∧
      (PasswordChange.step BACKEND_URL (some u) s ev).effects
        = [.request (changePasswordRequest BACKEND_URL s.formData), .call .onSuccess]) ∧
    (∀ user : Option Account, mustChange user = false →
      PasswordChange.offered user s .close = true ∧
      PasswordChange.offered user s .cancel = true ∧
      (PasswordChange.step BACKEND_URL user s .close).effects = [.call .onClose] ∧
      (PasswordChange.step BACKEND_URL user s .cancel).effects = [.call .onClose]) := by
  refine ⟨?_, ?_, ?_, ?_, ?_, ?_⟩
  · simp [PasswordChange.offered, mustChange, hflag]
  · simp [PasswordChange.offered, mustChange, hflag]
  · intro h
    have := PasswordChange_run_calls_forced BACKEND_URL u hflag evs s _ h
    cases this
  · exact PasswordChange_run_calls_forced BACKEND_URL u hflag evs s
  · intro ev hne
    rcases PasswordChange_step_calls_forced BACKEND_URL u hflag s ev with h | h
    · exact absurd h hne
    · exact h
  · intro user hu
    simp [PasswordChange.offered, PasswordChange.step, hu]

/-- Witness of C4: for `userLuis`, whose flag is set, clicking where the close and cancel
buttons would be and submitting a valid change calls `onSuccess` once and never `onClose`;
for `adminAna`, whose flag is not set, the close button calls `onClose`. -/
theorem PasswordChange_forced_offers_no_exit_witness :
    Callback.onClose ∉ callsOf (PasswordChange.run "http://h" (some userLuis)
      (changeFormWith "tmp-pw" "abc123" "abc123")
      [.close, .cancel, .submit (.ok ())]).effects ∧
    (PasswordChange.step "http://h" (some adminAna)
      (changeFormWith "tmp-pw" "abc123" "abc123") .close).effects = [.call .onClose] :=
  ⟨(PasswordChange_forced_offers_no_exit "http://h" userLuis
      (changeFormWith "tmp-pw" "abc123" "abc123")
      [.close, .cancel, .submit (.ok ())] rfl).2.2.1,
   ((PasswordChange_forced_offers_no_exit "http://h" userLuis
      (changeFormWith "tmp-pw" "abc123" "abc123") [] rfl).2.2.2.2.2
        (some adminAna) rfl).2.2.1⟩

/-- Appending to the same prefix is injective. -/
theorem str_append_left_cancel {a x y : String} (h : a ++ x = a ++ y) : x = y := by
  have := congrArg String.data h
  simp only [String.data_append] at this
  exact String.ext (List.append_cancel_left this)

/-- The requests of `handleCreateUser` are no deletions. -/
theorem handleCreateUser_requests (BACKEND_URL : String) (s : UMState)
    (post : Except AxiosError Unit) (list : Except AxiosError (List Account)) :
    ∀ r ∈ requestsOf (handleCreateUser BACKEND_URL s post list).effects,
      r.method ≠ Method.DELETE := by
  by_cases h : jsLength s.formData.temporary_password < 6
  · simp [handleCreateUser, h, requestsOf]
  · cases post <;> cases list <;>
      simp [handleCreateUser, h, requestsOf, fetchUsers, createUserRequest, listUsersRequest]

/-- The requests of `handleResetPassword` are no deletions. -/
theorem handleResetPassword_requests (BACKEND_URL : String) (s : UMState)
    (post : Except AxiosError Unit) :
    ∀ r ∈ requestsOf (handleResetPassword BACKEND_URL s post).effects,
      r.method ≠ Method.DELETE := by
  unfold handleResetPassword
  simp only []
  split
  · simp [requestsOf]
  · split
    · simp [requestsOf]
    · split
      · simp [requestsOf]
      · cases post <;> simp [requestsOf, resetPasswordRequest]

/-- The requests of `handleToggleActive` are no deletions. -/
theorem handleToggleActive_requests (BACKEND_URL : String) (s : UMState) (userId : String)
    (isActive : Bool) (put : Except AxiosError Unit)
    (list : Except AxiosError (List Account)) :
    ∀ r ∈ requestsOf (handleToggleActive BACKEND_URL s userId isActive put list).effects,
      r.method ≠ Method.DELETE := by
  cases put <;> cases list <;>
    simp [handleToggleActive, requestsOf, fetchUsers, toggleActiveRequest, listUsersRequest]

/-- The only deletion `handleDeleteUser` requests is that of the id it was given. -/
theorem handleDeleteUser_requests (BACKEND_URL : String) (s : UMState) (userId : String)
    (username : String) (confirmed : Bool) (del : Except AxiosError Unit)
    (list : Except AxiosError (List Account)) :
    ∀ r ∈ requestsOf
        (handleDeleteUser BACKEND_URL s userId username confirmed del list).effects,
      r.method = Method.DELETE → r = deleteUserRequest BACKEND_URL userId := by
  cases confirmed <;> cases del <;> cases list <;>
    simp [handleDeleteUser, requestsOf, fetchUsers, listUsersRequest]

/-- A deletion requested by one action of the page is that of a listed account other than the caller. -/
theorem UserManagement_step_delete_not_self (BACKEND_URL : String) (me : Account)
    (s : UMState) (ev : UMEvent) :
    ∀ r ∈ requestsOf (UserManagement.step BACKEND_URL (some me) s ev).effects,
      r.method = Method.DELETE →
        ∃ u ∈ s.users, u.id ≠ me.id ∧ r = deleteUserRequest BACKEND_URL u.id := by
  intro r hr hm
  unfold UserManagement.step at hr
  by_cases hoff : UserManagement.offered (some me) s ev = true
  · rw [if_pos hoff] at hr
    cases ev with
    | openForm => simp [requestsOf] at hr
    | closeForm => simp [requestsOf] at hr
    | changeForm f v => simp [requestsOf] at hr
    | openReset u => simp [requestsOf] at hr
    | closeReset => simp [requestsOf] at hr
    | changeReset f v => simp [requestsOf] at hr
    | submitCreate post list =>
      simp only [] at hr
      cases hfm : firstMissing (UserManagement.requiredCreateInputs s.formData) with
      | some _ => rw [hfm] at hr; simp [requestsOf] at hr
      | none =>
        rw [hfm] at hr
        exact absurd hm (handleCreateUser_requests BACKEND_URL s post list r hr)
    | submitReset post =>
      simp only [] at hr
      cases hfm : firstMissing (UserManagement.requiredResetInputs s.passwordData) with
      | some _ => rw [hfm] at hr; simp [requestsOf] at hr
      | none =>
        rw [hfm] at hr
        exact absurd hm (handleResetPassword_requests BACKEND_URL s post r hr)
    | toggleActive u put list =>
      exact absurd hm (handleToggleActive_requests BACKEND_URL s _ _ put list r hr)
    | deleteUser u confirmed del list =>
      simp only [UserManagement.offered, notSelf, Bool.and_eq_true, decide_eq_true_eq] at hoff
      obtain ⟨⟨_, hu⟩, hne⟩ := hoff
      exact ⟨u, hu, by simpa using hne,
        handleDeleteUser_requests BACKEND_URL s _ _ confirmed del list r hr hm⟩
  · rw [if_neg hoff] at hr
    simp [requestsOf] at hr


/-- A deletion requested by a sequence of actions is that of an account other than the caller. -/
theorem UserManagement_run_delete_not_self (BACKEND_URL : String) (me : Account)
    (evs : List UMEvent) :
    ∀ s : UMState, ∀ r ∈ requestsOf (UserManagement.run BACKEND_URL (some me) s evs).effects,
      r.method = Method.DELETE →
        ∃ u : Account, u.id ≠ me.id ∧ r = deleteUserRequest BACKEND_URL u.id := by
  induction evs with
  | nil => intro s r hr; simp [UserManagement.run, requestsOf] at hr
  | cons ev evs ih =>
    intro s r hr hm
    simp only [UserManagement.run, requestsOf_append, List.mem_append] at hr
    rcases hr with hr | hr
    · obtain ⟨u, _, hne, hu⟩ := UserManagement_step_delete_not_self BACKEND_URL me s ev r hr hm
      exact ⟨u, hne, hu⟩
    · exact ih _ r hr hm

/-- Deletion URLs of different ids differ. -/
theorem deleteUserRequest_url_inj (BACKEND_URL : String) (a b : String)
    (h : (deleteUserRequest BACKEND_URL a).url = (deleteUserRequest BACKEND_URL b).url) :
    a = b := by
  simp only [deleteUserRequest] at h
  exact str_append_left_cancel h

/-- C5: on the loaded page of an admin caller, the delete button of a listed account is
rendered exactly when the account's id differs from the caller's; and whatever the caller
does on the page, from any state or from the mounting on, no DELETE request is ever sent to
the URL of the caller's own account. -/
theorem UserManagement_self_delete_blocked (BACKEND_URL : String) (me : Account)
    (s : UMState) (evs : List UMEvent) (list : Except AxiosError (List Account))
    (hadmin : me.role = "admin") (hloaded : s.loading = false) :
    (∀ u ∈ s.users, ∀ (confirmed : Bool) (del : Except AxiosError Unit)
        (l : Except AxiosError (List Account)),
      (UserManagement.offered (some me) s (.deleteUser u confirmed del l) = true
        ↔ u.id ≠ me.id)) ∧
    (∀ r ∈ requestsOf (UserManagement.run BACKEND_URL (some me) s evs).effects,
      r.method = Method.DELETE → r.url ≠ (deleteUserRequest BACKEND_URL me.id).url) ∧
    deleteUserRequest BACKEND_URL me.id ∉
      requestsOf (UserManagement.run BACKEND_URL (some me) s evs).effects ∧
    deleteUserRequest BACKEND_URL me.id ∉
      requestsOf (UserManagement.session BACKEND_URL (some me) list evs).effects := by
  have hrun : ∀ s' : UMState,
      ∀ r ∈ requestsOf (UserManagement.run BACKEND_URL (some me) s' evs).effects,
        r.method = Method.DELETE → r.url ≠ (deleteUserRequest BACKEND_URL me.id).url := by
    intro s' r hr hm hurl
    obtain ⟨u, hne, rfl⟩ := UserManagement_run_delete_not_self BACKEND_URL me evs s' r hr hm
    exact hne (deleteUserRequest_url_inj BACKEND_URL _ _ hurl)
  refine ⟨?_, hrun s, ?_, ?_⟩
  · intro u hu confirmed del l
    simp [UserManagement.offered, UserManagement.view, isAdmin, hadmin, hloaded, hu, notSelf]
  · intro hmem
    exact hrun s _ hmem rfl rfl
  · intro hmem
    simp only [UserManagement.session, requestsOf_append, List.mem_append] at hmem
    rcases hmem with hmem | hmem
    · cases list <;>
        simp [UserManagement.mount, isAdmin, hadmin, fetchUsers, requestsOf,
          listUsersRequest, deleteUserRequest] at hmem
    · exact hrun _ _ hmem rfl rfl


/-- Witness of C5: `adminAna` is offered the deletion of `userLuis`, and asking for both
deletions sends none for her own account. -/
theorem UserManagement_self_delete_blocked_witness :
    (UserManagement.offered (some adminAna) loadedUsersPage
        (.deleteUser userLuis true (.ok ()) (.ok [adminAna])) = true
      ↔ userLuis.id ≠ adminAna.id) ∧
    deleteUserRequest "http://h" adminAna.id ∉
      requestsOf (UserManagement.run "http://h" (some adminAna) loadedUsersPage
        [.deleteUser adminAna true (.ok ()) (.ok [userLuis]),
         .deleteUser userLuis true (.ok ()) (.ok [adminAna])]).effects :=
  ⟨(UserManagement_self_delete_blocked "http://h" adminAna loadedUsersPage [] (.ok [])
      rfl rfl).1 userLuis (by decide) true (.ok ()) (.ok [adminAna]),
   (UserManagement_self_delete_blocked "http://h" adminAna loadedUsersPage
      [.deleteUser adminAna true (.ok ()) (.ok [userLuis]),
       .deleteUser userLuis true (.ok ()) (.ok [adminAna])] (.ok []) rfl rfl).2.2.1⟩

/-- Nothing is offered to a caller who is not an admin. -/
theorem UserManagement_offered_non_admin (user : Option Account) (s : UMState)
    (h : isAdmin user = false) (ev : UMEvent) : UserManagement.offered user s ev = false := by
  cases ev <;> simp [UserManagement.offered, UserManagement.view, h]

/-- A sequence of actions of a caller who is not an admin does nothing. -/
theorem UserManagement_run_non_admin (BACKEND_URL : String) (user : Option Account)
    (h : isAdmin user = false) (evs : List UMEvent) (s : UMState) :
    UserManagement.run BACKEND_URL user s evs = { state := s, effects := [] } := by
  induction evs with
  | nil => rfl
  | cons ev evs ih =>
    simp [UserManagement.run, UserManagement.step,
      UserManagement_offered_non_admin user s h ev, ih]

/-- C6: for a caller whose role is not admin, an absent user included, the mount effect of
the user-management view sends nothing and changes nothing, the view rendered is the
no-permission message, no action at all is offered, and any sequence of attempted actions,
from any state or from the mounting on, has no effect and leaves every cell, the account
list among them, as it was. -/
theorem UserManagement_non_admin_inert (BACKEND_URL : String) (user : Option Account)
    (s : UMState) (list : Except AxiosError (List Account)) (evs : List UMEvent)
    (h : isAdmin user = false) :
    (UserManagement.mount BACKEND_URL user s list).effects = [] ∧
    (UserManagement.mount BACKEND_URL user s list).state = s ∧
    UserManagement.view user s = .noPermission ∧
    (∀ ev, UserManagement.offered user s ev = false) ∧
    (UserManagement.run BACKEND_URL user s evs).effects = [] ∧
    (UserManagement.run BACKEND_URL user s evs).state = s ∧
    (UserManagement.session BACKEND_URL user list evs).effects = [] ∧
    (UserManagement.session BACKEND_URL user list evs).state = UMState.init := by
  have hm : UserManagement.mount BACKEND_URL user UMState.init list
      = { state := UMState.init, effects := [] } := by
    simp [UserManagement.mount, h]
  refine ⟨?_, ?_, ?_, ?_, ?_, ?_, ?_, ?_⟩
  · simp [UserManagement.mount, h]
  · simp [UserManagement.mount, h]
  · simp [UserManagement.view, h]
  · exact UserManagement_offered_non_admin user s h
  · rw [UserManagement_run_non_admin BACKEND_URL user h]
  · rw [UserManagement_run_non_admin BACKEND_URL user h]
  · simp [UserManagement.session, hm, UserManagement_run_non_admin BACKEND_URL user h]
  · simp [UserManagement.session, hm, UserManagement_run_non_admin BACKEND_URL user h]

/-- Witness of C6: the standard user `userLuis` gets the no-permission message and his
attempts to create, reset, toggle and delete send nothing; with no user at all the
mounting sends nothing. -/
theorem UserManagement_non_admin_inert_witness :
    (UserManagement.view (some userLuis) loadedUsersPage = .noPermission ∧
      (UserManagement.run "http://h" (some userLuis) loadedUsersPage
        [.openForm, .submitCreate (.ok ()) (.ok []), .openReset adminAna,
         .submitReset (.ok ()), .toggleActive adminAna (.ok ()) (.ok []),
         .deleteUser adminAna true (.ok ()) (.ok [])]).effects = []) ∧
    (UserManagement.session "http://h" none (.ok [adminAna]) [.openForm]).effects = [] :=
  ⟨⟨(UserManagement_non_admin_inert "http://h" (some userLuis) loadedUsersPage (.ok [])
        [.openForm, .submitCreate (.ok ()) (.ok []), .openReset adminAna,
         .submitReset (.ok ()), .toggleActive adminAna (.ok ()) (.ok []),
         .deleteUser adminAna true (.ok ()) (.ok [])] (by decide)).2.2.1,
     (UserManagement_non_admin_inert "http://h" (some userLuis) loadedUsersPage (.ok [])
        [.openForm, .submitCreate (.ok ()) (.ok []), .openReset adminAna,
         .submitReset (.ok ()), .toggleActive adminAna (.ok ()) (.ok []),
         .deleteUser adminAna true (.ok ()) (.ok [])] (by decide)).2.2.2.2.1⟩,
   (UserManagement_non_admin_inert "http://h" none loadedUsersPage (.ok [adminAna])
      [.openForm] rfl).2.2.2.2.2.2.1⟩

/-- The requests of a list of request effects. -/
theorem requestsOf_map_request (l : List Request) :
    requestsOf (l.map Effect.request) = l := by
  induction l with
  | nil => rfl
  | cons a l ih => simp [requestsOf, ih]

/-- What `fetchEquipment` requests, and that it keeps the record being edited. -/
theorem fetchEquipment_spec (BACKEND_URL : String) (s : ELState)
    (list : Except AxiosError (List Equipment)) :
    (fetchEquipment BACKEND_URL s list).state.editingEquipment = s.editingEquipment ∧
    requestsOf (fetchEquipment BACKEND_URL s list).effects = [listEquipmentRequest BACKEND_URL] := by
  cases list <;> simp [fetchEquipment, requestsOf]

/-- A form without `initialData` only sends POST requests. -/
theorem EquipmentForm_step_create_requests (BACKEND_URL : String) (child : EFState)
    (ev : EFEvent) :
    ∀ r ∈ requestsOf (EquipmentForm.step BACKEND_URL none child ev).effects,
      r.method = Method.POST := by
  unfold EquipmentForm.step
  split
  · cases ev with
    | change f v => simp [requestsOf]
    | cancel => simp [requestsOf]
    | submit dateParse resp =>
      simp only [EquipmentForm.submitForm]
      cases firstMissing (EquipmentForm.requiredInputs child.formData) with
      | some _ => simp [requestsOf]
      | none =>
        simp only [EquipmentForm.handleSubmit]
        cases newDateToISOString dateParse (objGet child.formData "fecha") with
        | none => simp [requestsOf]
        | some iso => cases resp <;> simp [requestsOf, createEquipmentRequest]
  · simp [requestsOf]

/-- One action of a caller who is not an admin, no record being edited: still none is, and
no PUT or DELETE request goes out. -/
theorem EquipmentList_step_non_admin (BACKEND_URL : String) (user : Option Account)
    (h : isAdmin user = false) (s : ELState) (hnone : s.editingEquipment = none)
    (ev : ELEvent) :
    (EquipmentList.step BACKEND_URL user s ev).state.editingEquipment = none ∧
    ∀ r ∈ requestsOf (EquipmentList.step BACKEND_URL user s ev).effects,
      r.method ≠ Method.PUT ∧ r.method ≠ Method.DELETE := by
  unfold EquipmentList.step
  by_cases hoff : EquipmentList.offered user s ev = true
  · rw [if_pos hoff]
    cases ev with
    | newEquipment => simp [requestsOf, hnone]
    | changeFilter f v => simp [requestsOf, hnone]
    | applyFilter resp =>
      cases resp <;> simp [handleFilter, requestsOf, hnone, filterEquipmentRequest]
    | clearFilters list =>
      cases list <;> simp [clearFilters, fetchEquipment, requestsOf, hnone, listEquipmentRequest]
    | exportExcel resp =>
      cases resp <;> simp [handleExport, requestsOf, hnone, exportRequest]
    | edit item => simp [EquipmentList.offered, h] at hoff
    | delete item c del list => simp [EquipmentList.offered, h] at hoff
    | prevPage => simp [paginate, requestsOf, hnone]
    | nextPage => simp [paginate, requestsOf, hnone]
    | gotoPage i => simp [paginate, requestsOf, hnone]
    | form child fev list =>
      have hreq := EquipmentForm_step_create_requests BACKEND_URL child fev
      simp only [EquipmentList.formEvent, hnone]
      have hmap : ∀ r ∈ requestsOf ((requestsOf
          (EquipmentForm.step BACKEND_URL none child fev).effects).map Effect.request),
          r.method ≠ Method.PUT ∧ r.method ≠ Method.DELETE := by
        intro r hr
        rw [requestsOf_map_request] at hr
        simp [hreq r hr]
      split
      · refine ⟨by simp [handleFormSubmit, (fetchEquipment_spec _ _ _).1], ?_⟩
        intro r hr
        simp only [requestsOf_append, List.mem_append, handleFormSubmit,
          (fetchEquipment_spec _ _ _).2, List.mem_singleton] at hr
        rcases hr with hr | hr
        · exact hmap r hr
        · simp [hr, listEquipmentRequest]
      · split
        · exact ⟨rfl, hmap⟩
        · exact ⟨hnone, hmap⟩
  · rw [if_neg hoff]
    simp [requestsOf, hnone]


/-- A sequence of actions of a caller who is not an admin, no record being edited at the
start: no PUT or DELETE request goes out. -/
theorem EquipmentList_run_non_admin (BACKEND_URL : String) (user : Option Account)
    (h : isAdmin user = false) (evs : List ELEvent) :
    ∀ s : ELState, s.editingEquipment = none →
      ∀ r ∈ requestsOf (EquipmentList.run BACKEND_URL user s evs).effects,
        r.method ≠ Method.PUT ∧ r.method ≠ Method.DELETE := by
  induction evs with
  | nil => intro s _ r hr; simp [EquipmentList.run, requestsOf] at hr
  | cons ev evs ih =>
    intro s hnone r hr
    have hstep := EquipmentList_step_non_admin BACKEND_URL user h s hnone ev
    simp only [EquipmentList.run, requestsOf_append, List.mem_append] at hr
    rcases hr with hr | hr
    · exact hstep.2 r hr
    · exact ih _ hstep.1 r hr

/-- Role gating of the equipment page: on the loaded page, the edit and the delete button
of every record shown are rendered exactly when the caller's role is admin. For a caller
who is not an admin neither button is offered for any record, and no sequence of actions
on the page and its form, from the mounting on or from any state in which no record is
being edited, sends a PUT or a DELETE request. The button that opens the creation form and
the filter buttons are rendered for every caller, the mount effect requests the list for
every caller, and every action other than edit and delete behaves the same whoever the
caller is. What a submission of the creation form then sends is not part of this
statement. -/
theorem EquipmentList_mutations_admin_only (BACKEND_URL : String) (user : Option Account)
    (s : ELState) (evs : List ELEvent) (list : Except AxiosError (List Equipment)) :
    (s.loading = false → ∀ item ∈ currentItems s,
      (EquipmentList.offered user s (.edit item) = true ↔ isAdmin user = true) ∧
      (∀ (confirmed : Bool) (del : Except AxiosError Unit)
          (l : Except AxiosError (List Equipment)),
        EquipmentList.offered user s (.delete item confirmed del l) = true
          ↔ isAdmin user = true)) ∧
    (isAdmin user = false →
      (∀ item, EquipmentList.offered user s (.edit item) = false) ∧
      (∀ item confirmed del l,
        EquipmentList.offered user s (.delete item confirmed del l) = false) ∧
      (s.editingEquipment = none →
        ∀ r ∈ requestsOf (EquipmentList.run BACKEND_URL user s evs).effects,
          r.method ≠ Method.PUT ∧ r.method ≠ Method.DELETE) ∧
      (∀ r ∈ requestsOf (EquipmentList.session BACKEND_URL user list evs).effects,
          r.method ≠ Method.PUT ∧ r.method ≠ Method.DELETE)) ∧
    (s.loading = false →
      EquipmentList.offered user s .newEquipment = true ∧
      (EquipmentList.step BACKEND_URL user s .newEquipment).state.showForm = true ∧
      (EquipmentList.step BACKEND_URL user s .newEquipment).state.editingEquipment
        = s.editingEquipment ∧
      (∀ resp, EquipmentList.offered user s (.applyFilter resp) = true) ∧
      (∀ l, EquipmentList.offered user s (.clearFilters l) = true)) ∧
    requestsOf (EquipmentList.session BACKEND_URL user list []).effects
      = [listEquipmentRequest BACKEND_URL] ∧
    (∀ ev : ELEvent, ev.isRowAction = false → ∀ other : Option Account,
      EquipmentList.step BACKEND_URL user s ev = EquipmentList.step BACKEND_URL other s ev) := by
  refine ⟨?_, ?_, ?_, ?_, ?_⟩
  · intro hl item hitem
    simp [EquipmentList.offered, hl, hitem]
  · intro h
    refine ⟨?_, ?_, ?_, ?_⟩
    · intro item; simp [EquipmentList.offered, h]
    · intro item c del l; simp [EquipmentList.offered, h]
    · exact EquipmentList_run_non_admin BACKEND_URL user h evs s
    · intro r hr
      simp only [EquipmentList.session, requestsOf_append, List.mem_append,
        (fetchEquipment_spec _ _ _).2, List.mem_singleton] at hr
      rcases hr with hr | hr
      · simp [hr, listEquipmentRequest]
      · refine EquipmentList_run_non_admin BACKEND_URL user h evs _ ?_ r hr
        rw [(fetchEquipment_spec _ _ _).1]; rfl
  · intro hl
    simp [EquipmentList.offered, EquipmentList.step, hl]
  · simp [EquipmentList.session, EquipmentList.run, requestsOf_append,
      (fetchEquipment_spec _ _ _).2, requestsOf]
  · intro ev hev other
    cases ev <;> simp [ELEvent.isRowAction] at hev <;>
      simp [EquipmentList.step, EquipmentList.offered]


/-- An instance of the role gating: on a loaded page showing `pcSistemas`, its edit button
is rendered exactly for an admin; for the standard user `userLuis` the attempts to edit and
to delete it send no PUT and no DELETE request, and the button that opens the creation
form is rendered. -/
theorem EquipmentList_mutations_admin_only_witness :
    (EquipmentList.offered (some adminAna) loadedEquipmentPage (.edit pcSistemas) = true
      ↔ isAdmin (some adminAna) = true) ∧
    (∀ r ∈ requestsOf (EquipmentList.run "http://h" (some userLuis) loadedEquipmentPage
        [.edit pcSistemas, .delete pcSistemas true (.ok ()) (.ok [])]).effects,
      r.method ≠ Method.PUT ∧ r.method ≠ Method.DELETE) ∧
    EquipmentList.offered (some userLuis) loadedEquipmentPage .newEquipment = true :=
  ⟨((EquipmentList_mutations_admin_only "http://h" (some adminAna) loadedEquipmentPage []
      (.ok [])).1 rfl pcSistemas (by decide)).1,
   ((EquipmentList_mutations_admin_only "http://h" (some userLuis) loadedEquipmentPage
      [.edit pcSistemas, .delete pcSistemas true (.ok ()) (.ok [])]
      (.ok [])).2.1 (by decide)).2.2.1 rfl,
   ((EquipmentList_mutations_admin_only "http://h" (some userLuis) loadedEquipmentPage []
      (.ok [])).2.2.1 rfl).1⟩

/-- Setting one key leaves the value read at another key as it was. -/
theorem objGet_objSet_ne (o : FormObj) (field value key : String) (h : field ≠ key) :
    objGet (objSet o field value) key = objGet o key := by
  induction o with
  | nil => simp [objSet, objGet, h]
  | cons kv rest ih =>
    obtain ⟨k, v⟩ := kv
    by_cases hk : k = field
    · subst hk; simp [objSet, objGet, h]
    · by_cases hk2 : k = key
      · subst hk2
        simp [objSet, objGet, hk]
      · simp [objSet, objGet, hk, hk2, ih]

/-- Without a `fecha` property in `formData`, `handleSubmit` ends in its `catch`, before
any request. -/
theorem EquipmentForm_handleSubmit_no_fecha (BACKEND_URL : String)
    (initialData : Option Equipment) (s : EFState) (dateParse : String → Option String)
    (resp : Except AxiosError Unit) (h : objGet s.formData "fecha" = none) :
    EquipmentForm.handleSubmit BACKEND_URL initialData s dateParse resp
      = { state := { s with error := "Error al guardar el equipo", loading := false },
          effects := [] } := by
  simp [EquipmentForm.handleSubmit, h, newDateToISOString]

/-- One action on the form neither gives `formData` a `fecha` property nor, without one,
sends a request or calls `onSubmit`. -/
theorem EquipmentForm_step_no_fecha (BACKEND_URL : String) (initialData : Option Equipment)
    (s : EFState) (ev : EFEvent) (h : objGet s.formData "fecha" = none) :
    objGet (EquipmentForm.step BACKEND_URL initialData s ev).state.formData "fecha" = none ∧
    requestsOf (EquipmentForm.step BACKEND_URL initialData s ev).effects = [] ∧
    Callback.onSubmit ∉ callsOf (EquipmentForm.step BACKEND_URL initialData s ev).effects := by
  unfold EquipmentForm.step
  by_cases hoff : EquipmentForm.offered s ev = true
  · rw [if_pos hoff]
    cases ev with
    | cancel => simp [h, requestsOf, callsOf]
    | submit dateParse resp =>
      simp only [EquipmentForm.submitForm]
      cases firstMissing (EquipmentForm.requiredInputs s.formData) with
      | some _ => simp [h, requestsOf, callsOf]
      | none =>
        simp [EquipmentForm_handleSubmit_no_fecha BACKEND_URL initialData s dateParse resp h,
          h, requestsOf, callsOf]
    | change field value =>
      have hne : field ≠ "fecha" := by
        intro hf
        subst hf
        simp [EquipmentForm.offered] at hoff
      simp [EquipmentForm.handleChange, objGet_objSet_ne _ _ _ _ hne, h, requestsOf, callsOf]
  · rw [if_neg hoff]
    simp [h, requestsOf, callsOf]

/-- A sequence of actions on the form neither gives `formData` a `fecha` property nor,
without one, sends a request or calls `onSubmit`. -/
theorem EquipmentForm_run_no_fecha (BACKEND_URL : String) (initialData : Option Equipment)
    (evs : List EFEvent) :
    ∀ s : EFState, objGet s.formData "fecha" = none →
      objGet (EquipmentForm.run BACKEND_URL initialData s evs).state.formData "fecha" = none ∧
      requestsOf (EquipmentForm.run BACKEND_URL initialData s evs).effects = [] ∧
      Callback.onSubmit ∉ callsOf (EquipmentForm.run BACKEND_URL initialData s evs).effects := by
  induction evs with
  | nil => intro s h; simp [EquipmentForm.run, h, requestsOf, callsOf]
  | cons ev evs ih =>
    intro s h
    obtain ⟨h1, h2, h3⟩ := EquipmentForm_step_no_fecha BACKEND_URL initialData s ev h
    obtain ⟨i1, i2, i3⟩ := ih _ h1
    simp only [EquipmentForm.run, requestsOf_append, callsOf_append, List.mem_append]
    exact ⟨i1, by simp [h2, i2], by simp [h3, i3]⟩

/-- The initial `formData` has no `fecha` property. -/
theorem EquipmentForm_init_no_fecha (initialData : Option Equipment) :
    objGet (EquipmentForm.init initialData).formData "fecha" = none := by
  simp [EquipmentForm.init, EquipmentForm.initFormData, objGet]


/-- C8, the code at the failing inputs: with the four required inputs filled in and a
backend that would accept the request, `handleSubmit` sends no request and does not call
`onSubmit` (it has no effect at all) and sets the error message, on the creation form as
on the form opened to update `pcSistemas`, however date strings parse. -/
theorem EquipmentForm_handleSubmit_filled_sends_nothing (BACKEND_URL : String)
    (dateParse : String → Option String) :
    firstMissing (EquipmentForm.requiredInputs filledCreateForm.formData) = none ∧
    (EquipmentForm.handleSubmit BACKEND_URL none filledCreateForm dateParse (.ok ())).effects
      = [] ∧
    (EquipmentForm.handleSubmit BACKEND_URL none filledCreateForm dateParse
      (.ok ())).state.error = "Error al guardar el equipo" ∧
    firstMissing (EquipmentForm.requiredInputs
      (EquipmentForm.init (some pcSistemas)).formData) = none ∧
    (EquipmentForm.handleSubmit BACKEND_URL (some pcSistemas)
      (EquipmentForm.init (some pcSistemas)) dateParse (.ok ())).effects = [] ∧
    (EquipmentForm.handleSubmit BACKEND_URL (some pcSistemas)
      (EquipmentForm.init (some pcSistemas)) dateParse (.ok ())).state.error
      = "Error al guardar el equipo" := by
  have h1 : objGet filledCreateForm.formData "fecha" = none := by decide
  have h2 : objGet (EquipmentForm.init (some pcSistemas)).formData "fecha" = none :=
    EquipmentForm_init_no_fecha _
  refine ⟨by decide, ?_, ?_, by decide, ?_, ?_⟩ <;>
    simp [EquipmentForm_handleSubmit_no_fecha, h1, h2]

/-- C9, what the code does: in every state the form reaches from its initial state through
its own controls, on create and on update, `formData` has no `fecha` property; no request
has been sent; and `handleSubmit` sends none and reports the save error, whatever the
backend would answer. No date, chosen or current, is ever submitted. -/
theorem EquipmentForm_reachable_never_requests (BACKEND_URL : String)
    (initialData : Option Equipment) (evs : List EFEvent)
    (dateParse : String → Option String) (resp : Except AxiosError Unit) :
    objGet (EquipmentForm.run BACKEND_URL initialData (EquipmentForm.init initialData)
      evs).state.formData "fecha" = none ∧
    requestsOf (EquipmentForm.run BACKEND_URL initialData (EquipmentForm.init initialData)
      evs).effects = [] ∧
    (EquipmentForm.handleSubmit BACKEND_URL initialData
      (EquipmentForm.run BACKEND_URL initialData (EquipmentForm.init initialData) evs).state
      dateParse resp).effects = [] ∧
    (EquipmentForm.handleSubmit BACKEND_URL initialData
      (EquipmentForm.run BACKEND_URL initialData (EquipmentForm.init initialData) evs).state
      dateParse resp).state.error = "Error al guardar el equipo" := by
  obtain ⟨h1, h2, _⟩ := EquipmentForm_run_no_fecha BACKEND_URL initialData evs
    (EquipmentForm.init initialData) (EquipmentForm_init_no_fecha initialData)
  refine ⟨h1, h2, ?_, ?_⟩ <;> simp [EquipmentForm_handleSubmit_no_fecha, h1]

/-- The input `firstMissing` reports is one of the list, and is empty. -/
theorem firstMissing_mem (l : List (String × String)) (name : String)
    (h : firstMissing l = some name) : (name, "") ∈ l := by
  induction l with
  | nil => simp [firstMissing] at h
  | cons kv rest ih =>
    obtain ⟨k, v⟩ := kv
    by_cases hv : v = ""
    · subst hv
      simp [firstMissing] at h
      simp [h]
    · simp [firstMissing, hv] at h
      simp [ih h]

/-- When `firstMissing` reports nothing, no input of the list is empty. -/
theorem firstMissing_none (l : List (String × String)) (h : firstMissing l = none) :
    ∀ kv ∈ l, kv.2 ≠ "" := by
  induction l with
  | nil => simp
  | cons kv rest ih =>
    obtain ⟨k, v⟩ := kv
    by_cases hv : v = ""
    · simp [firstMissing, hv] at h
    · simp [firstMissing, hv] at h
      intro kv hkv
      rcases List.mem_cons.1 hkv with rfl | hkv
      · exact hv
      · exact ih h kv hkv

/-- C10: when any of area, marca, modelo or serie is empty, submitting the equipment form
is blocked by the validation of the `required` inputs, which reports one of these four
inputs, itself empty; `handleSubmit` does not run, no request is issued and the form state
is unchanged. -/
theorem EquipmentForm_empty_required_blocked (BACKEND_URL : String)
    (initialData : Option Equipment) (s : EFState) (dateParse : String → Option String)
    (resp : Except AxiosError Unit)
    (h : fieldValue s.formData "area" = "" ∨ fieldValue s.formData "marca" = "" ∨
         fieldValue s.formData "modelo" = "" ∨ fieldValue s.formData "serie" = "") :
    (∃ input ∈ ["area", "marca", "modelo", "serie"],
      fieldValue s.formData input = "" ∧
      EquipmentForm.submitForm BACKEND_URL initialData s dateParse resp = .blocked input) ∧
    (EquipmentForm.step BACKEND_URL initialData s (.submit dateParse resp)).effects = [] ∧
    (EquipmentForm.step BACKEND_URL initialData s (.submit dateParse resp)).state = s := by
  cases hfm : firstMissing (EquipmentForm.requiredInputs s.formData) with
  | none =>
    have := firstMissing_none _ hfm
    simp [EquipmentForm.requiredInputs] at this
    rcases h with h | h | h | h <;> simp [h] at this
  | some input =>
    have hmem := firstMissing_mem _ _ hfm
    refine ⟨⟨input, ?_, ?_, ?_⟩, ?_, ?_⟩
    · simp only [EquipmentForm.requiredInputs, List.mem_cons, Prod.mk.injEq,
        List.mem_singleton, List.not_mem_nil, or_false] at hmem ⊢
      rcases hmem with h | h | h | h <;> simp [h.1]
    · simp only [EquipmentForm.requiredInputs, List.mem_cons, Prod.mk.injEq,
        List.mem_singleton, List.not_mem_nil, or_false] at hmem
      rcases hmem with h | h | h | h <;> rw [h.1] <;> exact h.2.symm
    · simp [EquipmentForm.submitForm, hfm]
    · simp only [EquipmentForm.step, EquipmentForm.submitForm, hfm]
      split <;> rfl
    · simp only [EquipmentForm.step, EquipmentForm.submitForm, hfm]
      split <;> rfl


/-- Witness of C10: the fresh creation form, whose area is empty, cannot be submitted. -/
theorem EquipmentForm_empty_required_blocked_witness :
    (∃ input ∈ ["area", "marca", "modelo", "serie"],
      fieldValue (EquipmentForm.init none).formData input = "" ∧
      EquipmentForm.submitForm "http://h" none (EquipmentForm.init none) anyDate (.ok ())
        = .blocked input) ∧
    (EquipmentForm.step "http://h" none (EquipmentForm.init none)
      (.submit anyDate (.ok ()))).effects = [] ∧
    (EquipmentForm.step "http://h" none (EquipmentForm.init none)
      (.submit anyDate (.ok ()))).state = EquipmentForm.init none :=
  EquipmentForm_empty_required_blocked "http://h" none (EquipmentForm.init none) anyDate
    (.ok ()) (Or.inl (by decide))

/-- A non-negative slice index is clamped to the length. -/
theorem sliceIndex_nonneg (len n : Nat) : sliceIndex len (n : Int) = min n len := by
  simp [sliceIndex]

/-- The page of number `i + 1` is the ten records after the first `10 * i`. -/
theorem currentItems_page (s : ELState) (i : Nat) :
    currentItems { s with currentPage := ((i + 1 : Nat) : Int) }
      = (s.equipment.drop (itemsPerPage * i)).take itemsPerPage := by
  have h1 : indexOfLastItem { s with currentPage := ((i + 1 : Nat) : Int) }
      = ((itemsPerPage * (i + 1) : Nat) : Int) := by
    simp [indexOfLastItem, itemsPerPage]; ring
  have h2 : indexOfFirstItem { s with currentPage := ((i + 1 : Nat) : Int) }
      = ((itemsPerPage * i : Nat) : Int) := by
    simp [indexOfFirstItem, indexOfLastItem, itemsPerPage]; ring
  unfold currentItems jsSlice
  rw [h1, h2, sliceIndex_nonneg, sliceIndex_nonneg]
  simp only []
  by_cases hlen : s.equipment.length ≤ itemsPerPage * i
  · rw [Nat.min_eq_right hlen, List.drop_of_length_le (Nat.le_refl _),
      List.drop_of_length_le hlen]
    simp
  · have hk : min (itemsPerPage * i) s.equipment.length = itemsPerPage * i := by omega
    rw [hk]
    apply List.take_eq_take.2
    simp only [List.length_drop, itemsPerPage] at *
    omega

/-- The first `n` pages, one after the other, are the first `10 * n` records. -/
theorem pages_concat_take (s : ELState) (n : Nat) :
    (List.range n).flatMap
        (fun i => currentItems { s with currentPage := ((i + 1 : Nat) : Int) })
      = s.equipment.take (itemsPerPage * n) := by
  induction n with
  | zero => simp
  | succ n ih =>
    rw [List.range_succ, List.flatMap_append, ih]
    simp only [List.flatMap_cons, List.flatMap_nil, List.append_nil, currentItems_page]
    rw [Nat.mul_succ, List.take_add]

/-- Ten records per page over `totalPages` pages cover the list. -/
theorem totalPages_covers (s : ELState) : s.equipment.length ≤ itemsPerPage * totalPages s := by
  simp only [totalPages, itemsPerPage]; omega

/-- The pages 1 to `totalPages`, one after the other, are the record list. -/
theorem pages_concat_all (s : ELState) :
    (List.range (totalPages s)).flatMap
        (fun i => currentItems { s with currentPage := ((i + 1 : Nat) : Int) })
      = s.equipment := by
  rw [pages_concat_take]
  exact List.take_of_length_le (totalPages_covers s)


/-- The value of `totalPages` is the ceiling of the length over ten. -/
theorem totalPages_eq_ceil (s : ELState) :
    totalPages s = ⌈(s.equipment.length : ℚ) / 10⌉₊ := by
  symm
  apply le_antisymm
  · rw [Nat.ceil_le, div_le_iff₀ (by norm_num : (0 : ℚ) < 10)]
    have := totalPages_covers s
    simp only [itemsPerPage] at this
    exact_mod_cast (by omega : s.equipment.length ≤ totalPages s * 10)
  · by_contra hlt
    push_neg at hlt
    have h1 : ⌈(s.equipment.length : ℚ) / 10⌉₊ + 1 ≤ totalPages s := hlt
    have h2 : (s.equipment.length : ℚ) / 10 ≤ ⌈(s.equipment.length : ℚ) / 10⌉₊ :=
      Nat.le_ceil _
    rw [div_le_iff₀ (by norm_num : (0 : ℚ) < 10)] at h2
    have h3 : s.equipment.length ≤ ⌈(s.equipment.length : ℚ) / 10⌉₊ * 10 := by
      exact_mod_cast h2
    simp only [totalPages, itemsPerPage] at h1
    omega

/-- The number of records on the page of number `i + 1`. -/
theorem page_length (s : ELState) (i : Nat) :
    (currentItems { s with currentPage := ((i + 1 : Nat) : Int) }).length
      = min 10 (s.equipment.length - 10 * i) := by
  rw [currentItems_page]
  simp [itemsPerPage]


/-- C17: the page of number `p` is the slice from `(p - 1) * 10` up to `p * 10`; the pages
1 to `totalPages`, one after the other, are exactly the record list; the record at offset
`j` of page `i + 1` is the record of index `10 * i + j`, and a page has no offset beyond 9;
so the record of index `k` is on page `k / 10 + 1`, one of the pages, at offset
`k % 10`, and nowhere else. -/
theorem pagination_partitions_records (s : ELState) :
    (∀ p : Int, currentItems { s with currentPage := p }
      = jsSlice s.equipment ((p - 1) * 10) (p * 10)) ∧
    (List.range (totalPages s)).flatMap
        (fun i => currentItems { s with currentPage := ((i + 1 : Nat) : Int) })
      = s.equipment ∧
    (∀ i j : Nat, (currentItems { s with currentPage := ((i + 1 : Nat) : Int) })[j]?
      = if j < 10 then s.equipment[10 * i + j]? else none) ∧
    (∀ k : Nat, k < s.equipment.length →
      k / 10 < totalPages s ∧
      (currentItems { s with currentPage := ((k / 10 + 1 : Nat) : Int) })[k % 10]?
        = s.equipment[k]?) := by
  refine ⟨?_, pages_concat_all s, ?_, ?_⟩
  · intro p
    simp only [currentItems, indexOfFirstItem, indexOfLastItem, itemsPerPage]
    congr 1
    push_cast
    ring
  · intro i j
    rw [currentItems_page]
    simp only [List.getElem?_take, List.getElem?_drop, itemsPerPage]
  · intro k hk
    refine ⟨?_, ?_⟩
    · simp only [totalPages, itemsPerPage]; omega
    · rw [currentItems_page]
      simp only [List.getElem?_take, List.getElem?_drop, itemsPerPage]
      have h1 : k % 10 < 10 := Nat.mod_lt _ (by decide)
      have h2 : 10 * (k / 10) + k % 10 = k := Nat.div_add_mod k 10
      simp [h1, h2]

/-- C18: `totalPages` is the ceiling of the number of records over 10; every page from 1
to `totalPages` holds between 1 and 10 records; every page before the last holds exactly
10; every page after `totalPages` is empty. -/
theorem totalPages_and_page_sizes (s : ELState) :
    totalPages s = ⌈(s.equipment.length : ℚ) / 10⌉₊ ∧
    (∀ p : Nat, 1 ≤ p → p ≤ totalPages s →
      1 ≤ (currentItems { s with currentPage := (p : Int) }).length ∧
      (currentItems { s with currentPage := (p : Int) }).length ≤ 10) ∧
    (∀ p : Nat, 1 ≤ p → p < totalPages s →
      (currentItems { s with currentPage := (p : Int) }).length = 10) ∧
    (∀ p : Nat, totalPages s < p → currentItems { s with currentPage := (p : Int) } = []) := by
  refine ⟨totalPages_eq_ceil s, ?_, ?_, ?_⟩
  · intro p h1 h2
    obtain ⟨i, rfl⟩ : ∃ i, p = i + 1 := ⟨p - 1, by omega⟩
    rw [page_length]
    simp only [totalPages, itemsPerPage] at h2
    omega
  · intro p h1 h2
    obtain ⟨i, rfl⟩ : ∃ i, p = i + 1 := ⟨p - 1, by omega⟩
    rw [page_length]
    simp only [totalPages, itemsPerPage] at h2
    omega
  · intro p h
    obtain ⟨i, rfl⟩ : ∃ i, p = i + 1 := ⟨p - 1, by omega⟩
    apply List.eq_nil_of_length_eq_zero
    rw [page_length]
    simp only [totalPages, itemsPerPage] at h
    omega


/-- Witness of C18: with eleven records, page 2 of 2 is not empty, page 1 is full and
page 3 is empty. -/
theorem totalPages_and_page_sizes_witness :
    (1 ≤ (currentItems { elevenLoaded with currentPage := ((2 : Nat) : Int) }).length ∧
      (currentItems { elevenLoaded with currentPage := ((2 : Nat) : Int) }).length ≤ 10) ∧
    (currentItems { elevenLoaded with currentPage := ((1 : Nat) : Int) }).length = 10 ∧
    currentItems { elevenLoaded with currentPage := ((3 : Nat) : Int) } = [] :=
  ⟨(totalPages_and_page_sizes elevenLoaded).2.1 2 (by decide) (by decide),
   (totalPages_and_page_sizes elevenLoaded).2.2.1 1 (by decide) (by decide),
   (totalPages_and_page_sizes elevenLoaded).2.2.2 3 (by decide)⟩

set_option maxRecDepth 100000 in
/-- C19, the code at the failing input: after loading eleven records, going to page 2 and
deleting the only record of that page, the current page is still 2 while `totalPages` is
1, so the current page is above `max(1, totalPages)`; the page shown is empty although ten
records are listed, and the pagination bar, hence its previous button, is not rendered. -/
theorem EquipmentList_page_beyond_last_after_delete :
    lastPageEmptied.currentPage = 2 ∧ totalPages lastPageEmptied = 1 ∧
    ¬ (lastPageEmptied.currentPage ≤ max 1 (totalPages lastPageEmptied : Int)) ∧
    lastPageEmptied.equipment = tenRecords ∧ lastPageEmptied.equipment ≠ [] ∧
    currentItems lastPageEmptied = [] ∧
    EquipmentList.offered (some adminAna) lastPageEmptied .prevPage = false := by
  decide

/-- Reading the key just set gives the value set. -/
theorem objGet_objSet_eq (o : FormObj) (key value : String) :
    objGet (objSet o key value) key = some value := by
  induction o with
  | nil => simp [objSet, objGet]
  | cons kv rest ih =>
    obtain ⟨k, v⟩ := kv
    by_cases hk : k = key
    · subst hk; simp [objSet, objGet]
    · simp [objSet, objGet, hk, ih]

/-- One action on the form keeps the three selects on their options. -/
theorem EquipmentForm_step_enums (BACKEND_URL : String) (initialData : Option Equipment)
    (s : EFState) (ev : EFEvent)
    (h1 : ∃ v ∈ ["cpu", "monitor", "impresora"], objGet s.formData "equipment_type" = some v)
    (h2 : ∃ v ∈ ["preventivo", "correctivo", "limpieza"],
      objGet s.formData "tipo_mantenimiento" = some v)
    (h3 : ∃ v ∈ ["operativo", "en_reparacion", "fuera_servicio"],
      objGet s.formData "estado_equipo" = some v) :
    (∃ v ∈ ["cpu", "monitor", "impresora"],
      objGet (EquipmentForm.step BACKEND_URL initialData s ev).state.formData
        "equipment_type" = some v) ∧
    (∃ v ∈ ["preventivo", "correctivo", "limpieza"],
      objGet (EquipmentForm.step BACKEND_URL initialData s ev).state.formData
        "tipo_mantenimiento" = some v) ∧
    (∃ v ∈ ["operativo", "en_reparacion", "fuera_servicio"],
      objGet (EquipmentForm.step BACKEND_URL initialData s ev).state.formData
        "estado_equipo" = some v) := by
  unfold EquipmentForm.step
  by_cases hoff : EquipmentForm.offered s ev = true
  · rw [if_pos hoff]
    cases ev with
    | cancel => exact ⟨h1, h2, h3⟩
    | submit dateParse resp =>
      simp only [EquipmentForm.submitForm]
      cases firstMissing (EquipmentForm.requiredInputs s.formData) with
      | some _ => exact ⟨h1, h2, h3⟩
      | none =>
        have hfd : (EquipmentForm.handleSubmit BACKEND_URL initialData s dateParse
            resp).state.formData = s.formData := by
          simp only [EquipmentForm.handleSubmit]
          cases newDateToISOString dateParse (objGet s.formData "fecha") with
          | none => rfl
          | some iso => cases resp <;> rfl
        simp only [hfd]
        exact ⟨h1, h2, h3⟩
    | change field value =>
      simp only [EquipmentForm.handleChange]
      simp only [EquipmentForm.offered] at hoff
      by_cases f1 : field = "equipment_type"
      · subst f1
        simp only [if_true, decide_eq_true_eq] at hoff
        refine ⟨⟨value, hoff, objGet_objSet_eq _ _ _⟩, ?_, ?_⟩
        · rw [objGet_objSet_ne _ _ _ _ (by decide)]; exact h2
        · rw [objGet_objSet_ne _ _ _ _ (by decide)]; exact h3
      · by_cases f2 : field = "tipo_mantenimiento"
        · subst f2
          simp only [if_neg f1, if_true, decide_eq_true_eq] at hoff
          refine ⟨?_, ⟨value, hoff, objGet_objSet_eq _ _ _⟩, ?_⟩
          · rw [objGet_objSet_ne _ _ _ _ (by decide)]; exact h1
          · rw [objGet_objSet_ne _ _ _ _ (by decide)]; exact h3
        · by_cases f3 : field = "estado_equipo"
          · subst f3
            simp only [if_neg f1, if_neg f2, if_true, decide_eq_true_eq] at hoff
            refine ⟨?_, ?_, ⟨value, hoff, objGet_objSet_eq _ _ _⟩⟩
            · rw [objGet_objSet_ne _ _ _ _ (by decide)]; exact h1
            · rw [objGet_objSet_ne _ _ _ _ (by decide)]; exact h2
          · rw [objGet_objSet_ne _ _ _ _ f1, objGet_objSet_ne _ _ _ _ f2,
              objGet_objSet_ne _ _ _ _ f3]
            exact ⟨h1, h2, h3⟩
  · rw [if_neg hoff]
    exact ⟨h1, h2, h3⟩

/-- C20: the creation form starts with `equipment_type` cpu, `tipo_mantenimiento`
preventivo and `estado_equipo` operativo, and after any sequence of actions on the form
(changes through its selects and inputs, submissions, cancellations) `equipment_type` is
one of cpu, monitor, impresora, `tipo_mantenimiento` one of preventivo, correctivo,
limpieza, and `estado_equipo` one of operativo, en_reparacion, fuera_servicio. -/
theorem EquipmentForm_enums_defined (BACKEND_URL : String) (evs : List EFEvent) :
    objGet (EquipmentForm.init none).formData "equipment_type" = some "cpu" ∧
    objGet (EquipmentForm.init none).formData "tipo_mantenimiento" = some "preventivo" ∧
    objGet (EquipmentForm.init none).formData "estado_equipo" = some "operativo" ∧
    (∃ v ∈ ["cpu", "monitor", "impresora"],
      objGet (EquipmentForm.run BACKEND_URL none (EquipmentForm.init none) evs).state.formData
        "equipment_type" = some v) ∧
    (∃ v ∈ ["preventivo", "correctivo", "limpieza"],
      objGet (EquipmentForm.run BACKEND_URL none (EquipmentForm.init none) evs).state.formData
        "tipo_mantenimiento" = some v) ∧
    (∃ v ∈ ["operativo", "en_reparacion", "fuera_servicio"],
      objGet (EquipmentForm.run BACKEND_URL none (EquipmentForm.init none) evs).state.formData
        "estado_equipo" = some v) := by
  have key : ∀ (evs : List EFEvent) (s : EFState),
      (∃ v ∈ ["cpu", "monitor", "impresora"], objGet s.formData "equipment_type" = some v) →
      (∃ v ∈ ["preventivo", "correctivo", "limpieza"],
        objGet s.formData "tipo_mantenimiento" = some v) →
      (∃ v ∈ ["operativo", "en_reparacion", "fuera_servicio"],
        objGet s.formData "estado_equipo" = some v) →
      (∃ v ∈ ["cpu", "monitor", "impresora"],
        objGet (EquipmentForm.run BACKEND_URL none s evs).state.formData
          "equipment_type" = some v) ∧
      (∃ v ∈ ["preventivo", "correctivo", "limpieza"],
        objGet (EquipmentForm.run BACKEND_URL none s evs).state.formData
          "tipo_mantenimiento" = some v) ∧
      (∃ v ∈ ["operativo", "en_reparacion", "fuera_servicio"],
        objGet (EquipmentForm.run BACKEND_URL none s evs).state.formData
          "estado_equipo" = some v) := by
    intro evs
    induction evs with
    | nil => intro s h1 h2 h3; exact ⟨h1, h2, h3⟩
    | cons ev evs ih =>
      intro s h1 h2 h3
      obtain ⟨g1, g2, g3⟩ := EquipmentForm_step_enums BACKEND_URL none s ev h1 h2 h3
      exact ih _ g1 g2 g3
  refine ⟨by decide, by decide, by decide, ?_⟩
  exact key evs (EquipmentForm.init none) ⟨"cpu", by decide, by decide⟩
    ⟨"preventivo", by decide, by decide⟩ ⟨"operativo", by decide, by decide⟩

/-- C11: whatever the filters were and whatever the backend answers, `clearFilters` sets
the seven filter fields to the empty string and sends one request, the plain list request,
which carries no filter; when the backend answers it with the record list, that list
becomes the list shown, as it is: same records, same order, and its pages one after the
other give it back entire. -/
theorem clearFilters_lists_all_records (BACKEND_URL : String) (s : ELState)
    (data : List Equipment) (resp : Except AxiosError (List Equipment)) :
    (clearFilters BACKEND_URL s resp).state.filters = emptyFilters ∧
    ((clearFilters BACKEND_URL s resp).state.filters.equipment_type = "" ∧
      (clearFilters BACKEND_URL s resp).state.filters.area = "" ∧
      (clearFilters BACKEND_URL s resp).state.filters.tipo_mantenimiento = "" ∧
      (clearFilters BACKEND_URL s resp).state.filters.estado_equipo = "" ∧
      (clearFilters BACKEND_URL s resp).state.filters.fecha_inicio = "" ∧
      (clearFilters BACKEND_URL s resp).state.filters.fecha_fin = "" ∧
      (clearFilters BACKEND_URL s resp).state.filters.search = "") ∧
    requestsOf (clearFilters BACKEND_URL s resp).effects = [listEquipmentRequest BACKEND_URL] ∧
    (listEquipmentRequest BACKEND_URL).body = none ∧
    (clearFilters BACKEND_URL s (.ok data)).state.equipment = data ∧
    (List.range (totalPages (clearFilters BACKEND_URL s (.ok data)).state)).flatMap
        (fun i => currentItems
          { (clearFilters BACKEND_URL s (.ok data)).state with
            currentPage := ((i + 1 : Nat) : Int) })
      = data := by
  have hf : (clearFilters BACKEND_URL s resp).state.filters = emptyFilters := by
    cases resp <;> rfl
  refine ⟨hf, ?_, ?_, rfl, rfl, ?_⟩
  · rw [hf]; exact ⟨rfl, rfl, rfl, rfl, rfl, rfl, rfl⟩
  · cases resp <;> simp [clearFilters, fetchEquipment, requestsOf]
  · rw [pages_concat_all]; rfl

/-- C12: for every filter state, `handleFilter` and `handleExport` each send one request,
and both carry the same body, the current `filters`; so whatever the filter engine makes
of a specification, it makes the same of the one exported and of the one listed. -/
theorem handleExport_sends_filter_spec (BACKEND_URL : String) (s : ELState)
    (respF : Except AxiosError (List Equipment)) (respE : Except AxiosError (List Nat)) :
    requestsOf (handleFilter BACKEND_URL s respF).effects
      = [filterEquipmentRequest BACKEND_URL s.filters] ∧
    requestsOf (handleExport BACKEND_URL s respE).effects
      = [exportRequest BACKEND_URL s.filters] ∧
    (exportRequest BACKEND_URL s.filters).body = some s.filters.toBody ∧
    (exportRequest BACKEND_URL s.filters).body
      = (filterEquipmentRequest BACKEND_URL s.filters).body ∧
    (∀ engine : Option (List (String × JVal)) → List Equipment,
      engine (exportRequest BACKEND_URL s.filters).body
        = engine (filterEquipmentRequest BACKEND_URL s.filters).body) := by
  refine ⟨?_, ?_, rfl, rfl, fun _ => rfl⟩
  · cases respF <;> simp [handleFilter, requestsOf]
  · cases respE <;> simp [handleExport, requestsOf]

/-- C13: for every filter state and every payload the backend returns, `handleExport`
offers that payload for download under the name `reporte_mantenimiento.xlsx`; it never
offers a download under another name; and it leaves every cell, the record list, the
filters and the current page among them, as it was. -/
theorem handleExport_fixed_filename (BACKEND_URL : String) (s : ELState)
    (payload : List Nat) (resp : Except AxiosError (List Nat)) :
    (handleExport BACKEND_URL s (.ok payload)).effects
      = [.request (exportRequest BACKEND_URL s.filters),
         .download "reporte_mantenimiento.xlsx" payload] ∧
    (∀ name p, Effect.download name p ∈ (handleExport BACKEND_URL s resp).effects →
      name = "reporte_mantenimiento.xlsx") ∧
    (handleExport BACKEND_URL s resp).state = s ∧
    (handleExport BACKEND_URL s resp).state.equipment = s.equipment ∧
    (handleExport BACKEND_URL s resp).state.filters = s.filters ∧
    (handleExport BACKEND_URL s resp).state.currentPage = s.currentPage := by
  have hs : (handleExport BACKEND_URL s resp).state = s := by cases resp <;> rfl
  refine ⟨rfl, ?_, hs, by rw [hs], by rw [hs], by rw [hs]⟩
  intro name p hmem
  cases resp <;> simp [handleExport] at hmem
  exact hmem.1

/-- C16: for every account id and current `is_active` value, the first request of
`handleToggleActive` is the update of that account whose body is `is_active` alone, set to
the negation of the current value; no PUT it sends has another body; and a second toggle,
made from the value the first one sent, sends the original value. -/
theorem handleToggleActive_sends_negation (BACKEND_URL : String) (s s2 : UMState)
    (userId : String) (isActive : Bool) (put put2 : Except AxiosError Unit)
    (list list2 : Except AxiosError (List Account)) :
    (requestsOf (handleToggleActive BACKEND_URL s userId isActive put list).effects).head?
      = some (toggleActiveRequest BACKEND_URL userId (!isActive)) ∧
    (toggleActiveRequest BACKEND_URL userId (!isActive)).body
      = some [("is_active", JVal.bool (!isActive))] ∧
    (∀ r ∈ requestsOf (handleToggleActive BACKEND_URL s userId isActive put list).effects,
      r.method = Method.PUT → r.body = some [("is_active", JVal.bool (!isActive))]) ∧
    (requestsOf (handleToggleActive BACKEND_URL s2 userId (!isActive) put2 list2).effects).head?
      = some (toggleActiveRequest BACKEND_URL userId isActive) ∧
    (toggleActiveRequest BACKEND_URL userId (!(!isActive))).body
      = some [("is_active", JVal.bool isActive)] := by
  refine ⟨?_, rfl, ?_, ?_, by simp [toggleActiveRequest]⟩
  · cases put <;> cases list <;> simp [handleToggleActive, fetchUsers, requestsOf]
  · cases put <;> cases list <;>
      simp [handleToggleActive, fetchUsers, requestsOf, toggleActiveRequest, listUsersRequest]
  · cases put2 <;> cases list2 <;> simp [handleToggleActive, fetchUsers, requestsOf]

/-- When `handleResetPassword` reports success, an account was selected, the backend
accepted, and the reset request is what was sent. -/
theorem handleResetPassword_success_iff (BACKEND_URL : String) (s : UMState)
    (post : Except AxiosError Unit) (h : (handleResetPassword BACKEND_URL s post).state.success ≠ "") :
    ∃ u, s.selectedUser = some u ∧ post = .ok () ∧
      (handleResetPassword BACKEND_URL s post).effects
        = [.request (resetPasswordRequest BACKEND_URL u.id s.passwordData.new_password)] := by
  unfold handleResetPassword at h ⊢
  simp only [] at h ⊢
  split at h
  · simp at h
  · split at h
    · simp at h
    · rename_i h1 h2
      cases hsel : s.selectedUser with
      | none => simp [hsel] at h
      | some u =>
        cases post with
        | error e => simp [hsel] at h
        | ok x => exact ⟨u, rfl, rfl, by simp [h1, h2, hsel]⟩

/-- C14: run against the backend of the specification, whenever `handleResetPassword`
reports success for the selected account, the store holds that account; every stored
account of that id has `must_change_password = true`, whatever the flag was before, and
the hash of the new password; and the other accounts are as they were. -/
theorem reset_forces_must_change (BACKEND_URL : String) (hash : String → String)
    (caller : Option Account) (store : List StoredAccount) (s : UMState) (u : Account)
    (hsel : s.selectedUser = some u)
    (hsucc : (resetPasswordAgainstBackend BACKEND_URL hash caller store s).1.state.success
      ≠ "") :
    (∃ a ∈ (resetPasswordAgainstBackend BACKEND_URL hash caller store s).2,
      a.account.id = u.id) ∧
    (∀ a ∈ (resetPasswordAgainstBackend BACKEND_URL hash caller store s).2,
      a.account.id = u.id →
        a.account.must_change_password = true ∧
        a.password_hash = hash s.passwordData.new_password) ∧
    (∀ a ∈ store, a.account.id ≠ u.id →
      a ∈ (resetPasswordAgainstBackend BACKEND_URL hash caller store s).2) := by
  unfold resetPasswordAgainstBackend at hsucc ⊢
  simp only [hsel] at hsucc ⊢
  have hs : (handleResetPassword BACKEND_URL s
      (toAxios (adminReset hash caller store u.id s.passwordData.new_password))).state.success
      ≠ "" := by
    split at hsucc <;> exact hsucc
  obtain ⟨u2, hu2, hpost, heff⟩ := handleResetPassword_success_iff BACKEND_URL s _ hs
  have hu : u2 = u := by rw [hsel] at hu2; exact (Option.some.inj hu2).symm
  subst hu
  rw [heff]
  simp only [requestsOf, List.mem_singleton, if_true]
  cases hr : adminReset hash caller store u2.id s.passwordData.new_password with
  | error e => rw [hr] at hpost; simp [toAxios] at hpost
  | ok store2 =>
    simp only [storeAfter]
    unfold adminReset at hr
    split at hr
    · simp at hr
    · split at hr
      · simp at hr
      · split at hr
        · simp at hr
        · rename_i hany
          simp only [Except.ok.injEq] at hr
          subst hr
          simp only [Bool.not_eq_true, Bool.not_eq_false', List.any_eq_true,
            decide_eq_true_eq] at hany
          refine ⟨?_, ?_, ?_⟩
          · obtain ⟨a, ha, hid⟩ := hany
            refine ⟨_, List.mem_map.2 ⟨a, ha, rfl⟩, ?_⟩
            simp [hid]
          · intro a ha hid
            obtain ⟨b, hb, rfl⟩ := List.mem_map.1 ha
            by_cases hbid : b.account.id = u2.id
            · simp [hbid]
            · simp [hbid] at hid
          · intro a ha hid
            exact List.mem_map.2 ⟨a, ha, by simp [hid]⟩


/-- When `handleCreateUser` reports success, the backend accepted, the creation request
was sent, and the list shown is the one the reload returned. -/
theorem handleCreateUser_success_iff (BACKEND_URL : String) (s : UMState)
    (post : Except AxiosError Unit) (list : Except AxiosError (List Account))
    (h : (handleCreateUser BACKEND_URL s post list).state.success ≠ "") :
    post = .ok () ∧
    createUserRequest BACKEND_URL s.formData
      ∈ requestsOf (handleCreateUser BACKEND_URL s post list).effects ∧
    (∀ data, list = .ok data → (handleCreateUser BACKEND_URL s post list).state.users = data) := by
  unfold handleCreateUser at h ⊢
  simp only [] at h ⊢
  split at h
  · simp at h
  · rename_i hlen
    cases post with
    | error e => simp at h
    | ok x =>
      refine ⟨rfl, by simp [hlen, requestsOf], ?_⟩
      intro data hd
      subst hd
      simp [hlen, fetchUsers]

/-- C15: run against the backend of the specification, whenever `handleCreateUser` reports
success, the store has gained exactly one account, which has the id assigned, the
username of the form, the hash of the temporary password and
`must_change_password = true`; and the list the page shows after its reload is the store
with that account. -/
theorem created_account_must_change (BACKEND_URL : String) (hash : String → String)
    (newId : String) (active : Bool) (caller : Option Account) (store : List StoredAccount)
    (s : UMState)
    (hsucc : (createUserAgainstBackend BACKEND_URL hash newId active caller store
      s).1.state.success ≠ "") :
    ∃ a : StoredAccount,
      (createUserAgainstBackend BACKEND_URL hash newId active caller store s).2
        = store ++ [a] ∧
      a.account.id = newId ∧
      a.account.username = s.formData.username ∧
      a.account.must_change_password = true ∧
      a.password_hash = hash s.formData.temporary_password ∧
      (createUserAgainstBackend BACKEND_URL hash newId active caller store s).1.state.users
        = (store ++ [a]).map (·.account) := by
  unfold createUserAgainstBackend at hsucc ⊢
  simp only [] at hsucc ⊢
  have hs : (handleCreateUser BACKEND_URL s
      (toAxios (issueTemporary hash newId active caller store s.formData))
      (serveListUsers caller
        (storeAfter store (issueTemporary hash newId active caller store s.formData)))).state.success
      ≠ "" := by
    split at hsucc <;> exact hsucc
  obtain ⟨hpost, hreq, husers⟩ := handleCreateUser_success_iff BACKEND_URL s _ _ hs
  rw [if_pos hreq]
  cases hr : issueTemporary hash newId active caller store s.formData with
  | error e => rw [hr] at hpost; simp [toAxios] at hpost
  | ok store2 =>
    rw [hr] at husers
    simp only [storeAfter] at husers ⊢
    unfold issueTemporary at hr
    split at hr
    · simp at hr
    · rename_i hgate
      split at hr
      · simp at hr
      · split at hr
        · simp at hr
        · simp only [Except.ok.injEq] at hr
          subst hr
          refine ⟨_, rfl, rfl, rfl, rfl, rfl, ?_⟩
          apply husers
          simp only [Bool.not_eq_true, Bool.not_eq_false'] at hgate
          simp [serveListUsers, hgate]


/-- Witness of C14: `adminAna` resets the password of `luisSettled`, whose flag was false,
to `abc123`; afterwards the stored account of that id has the flag set. -/
theorem reset_forces_must_change_witness :
    (∃ a ∈ (resetPasswordAgainstBackend "http://h" toyHash (some adminAna) accountStore
        (resetFormFor luisSettled "abc123" "abc123")).2, a.account.id = luisSettled.id) ∧
    (∀ a ∈ (resetPasswordAgainstBackend "http://h" toyHash (some adminAna) accountStore
        (resetFormFor luisSettled "abc123" "abc123")).2,
      a.account.id = luisSettled.id →
        a.account.must_change_password = true ∧
        a.password_hash = toyHash (resetFormFor luisSettled "abc123"
          "abc123").passwordData.new_password) ∧
    (∀ a ∈ accountStore, a.account.id ≠ luisSettled.id →
      a ∈ (resetPasswordAgainstBackend "http://h" toyHash (some adminAna) accountStore
        (resetFormFor luisSettled "abc123" "abc123")).2) :=
  reset_forces_must_change "http://h" toyHash (some adminAna) accountStore
    (resetFormFor luisSettled "abc123" "abc123") luisSettled rfl (by decide)

/-- Witness of C15: `adminAna` creates the account `luis` with the temporary password
`abc123`; the store gains that account with the flag set. -/
theorem created_account_must_change_witness :
    ∃ a : StoredAccount,
      (createUserAgainstBackend "http://h" toyHash "u2" true (some adminAna) adminOnlyStore
        (createFormWith "abc123")).2 = adminOnlyStore ++ [a] ∧
      a.account.id = "u2" ∧
      a.account.username = (createFormWith "abc123").formData.username ∧
      a.account.must_change_password = true ∧
      a.password_hash = toyHash (createFormWith "abc123").formData.temporary_password ∧
      (createUserAgainstBackend "http://h" toyHash "u2" true (some adminAna) adminOnlyStore
        (createFormWith "abc123")).1.state.users = (adminOnlyStore ++ [a]).map (·.account) :=
  created_account_must_change "http://h" toyHash "u2" true (some adminAna) adminOnlyStore
    (createFormWith "abc123") (by decide)

/-- Witness of C13: the export of the page with eleven records offers the two bytes the
backend returned under the fixed name. -/
theorem handleExport_fixed_filename_witness :
    Effect.download "reporte_mantenimiento.xlsx" [80, 75]
      ∈ (handleExport "http://h" elevenLoaded (.ok [80, 75])).effects ∧
    "reporte_mantenimiento.xlsx" = "reporte_mantenimiento.xlsx" :=
  ⟨by decide,
   (handleExport_fixed_filename "http://h" elevenLoaded [80, 75] (.ok [80, 75])).2.1
     "reporte_mantenimiento.xlsx" [80, 75] (by decide)⟩

/-- Witness of C16: toggling the active account `u2` sends a PUT whose body is
`is_active: false` alone. -/
theorem handleToggleActive_sends_negation_witness :
    (toggleActiveRequest "http://h" "u2" (!true)).body
      = some [("is_active", JVal.bool (!true))] :=
  (handleToggleActive_sends_negation "http://h" loadedUsersPage loadedUsersPage "u2" true
    (.ok ()) (.ok ()) (.ok [adminAna]) (.ok [adminAna])).2.2.1
    (toggleActiveRequest "http://h" "u2" (!true)) (by decide) rfl

/-- Witness of C17: of eleven records, the one of index 10 is the first of page 2. -/
theorem pagination_partitions_records_witness :
    10 / 10 < totalPages elevenLoaded ∧
    (currentItems { elevenLoaded with currentPage := ((10 / 10 + 1 : Nat) : Int) })[10 % 10]?
      = elevenLoaded.equipment[10]? :=
  (pagination_partitions_records elevenLoaded).2.2.2 10 (by decide)

/-- Setting a key to the same value twice is setting it once. -/
theorem objSet_idem (o : FormObj) (key value : String) :
    objSet (objSet o key value) key value = objSet o key value := by
  induction o with
  | nil => simp [objSet]
  | cons kv rest ih =>
    obtain ⟨k, v⟩ := kv
    by_cases hk : k = key
    · subst hk; simp [objSet]
    · simp [objSet, hk, ih]

/-- Setting a key the object already has keeps its keys, in their order. -/
theorem objSet_keys (o : FormObj) (key value : String) (h : objGet o key ≠ none) :
    (objSet o key value).map (·.1) = o.map (·.1) := by
  induction o with
  | nil => simp [objGet] at h
  | cons kv rest ih =>
    obtain ⟨k, v⟩ := kv
    by_cases hk : k = key
    · subst hk; simp [objSet]
    · simp only [objGet, hk, if_false] at h
      simp [objSet, hk, ih h]

/-- C21: for every form state, field name and value, after `handleChange(field, value)`
the field reads as the value and every other field reads as before (an absent one stays
absent); when the field already existed the keys and their order are unchanged; `loading`
and `error` are untouched; and applying it twice with the same arguments gives the same
state as applying it once. -/
theorem EquipmentForm_handleChange_frame (s : EFState) (field value : String) :
    objGet (EquipmentForm.handleChange s field value).formData field = some value ∧
    (∀ key, key ≠ field →
      objGet (EquipmentForm.handleChange s field value).formData key
        = objGet s.formData key) ∧
    (objGet s.formData field ≠ none →
      (EquipmentForm.handleChange s field value).formData.map (·.1)
        = s.formData.map (·.1)) ∧
    (EquipmentForm.handleChange s field value).loading = s.loading ∧
    (EquipmentForm.handleChange s field value).error = s.error ∧
    EquipmentForm.handleChange (EquipmentForm.handleChange s field value) field value
      = EquipmentForm.handleChange s field value := by
  refine ⟨objGet_objSet_eq _ _ _, ?_, ?_, rfl, rfl, ?_⟩
  · intro key hkey
    exact objGet_objSet_ne _ _ _ _ (Ne.symm hkey)
  · intro h
    exact objSet_keys _ _ _ h
  · simp [EquipmentForm.handleChange, objSet_idem]

/-- Witness of C21: changing marca on the filled creation form leaves modelo and the keys
as they were. -/
theorem EquipmentForm_handleChange_frame_witness :
    objGet (EquipmentForm.handleChange filledCreateForm "marca" "Dell").formData "modelo"
      = objGet filledCreateForm.formData "modelo" ∧
    (EquipmentForm.handleChange filledCreateForm "marca" "Dell").formData.map (·.1)
      = filledCreateForm.formData.map (·.1) :=
  ⟨(EquipmentForm_handleChange_frame filledCreateForm "marca" "Dell").2.1 "modelo"
      (by decide),
   (EquipmentForm_handleChange_frame filledCreateForm "marca" "Dell").2.2.1 (by decide)⟩

/-- C22: for every `initialData`, each of the nine fields of the initial `formData` is the
value of `initialData` when that value is present and not the empty string, and otherwise
its default: the empty string for area, nombre_pc, marca, modelo, serie and observaciones,
cpu, preventivo and operativo for the three enums; with no `initialData` every field is
its default; in both cases `formData` has these nine keys and no other, and the form
starts neither loading nor in error. -/
theorem EquipmentForm_init_from_initialData (d : Equipment) :
    (∀ t ∈ [("area", d.area, ""), ("equipment_type", d.equipment_type, "cpu"),
            ("nombre_pc", d.nombre_pc, ""), ("marca", d.marca, ""),
            ("modelo", d.modelo, ""), ("serie", d.serie, ""),
            ("tipo_mantenimiento", d.tipo_mantenimiento, "preventivo"),
            ("observaciones", d.observaciones, ""),
            ("estado_equipo", d.estado_equipo, "operativo")],
      (∀ v, t.2.1 = some v → v ≠ "" →
        objGet (EquipmentForm.init (some d)).formData t.1 = some v) ∧
      ((t.2.1 = none ∨ t.2.1 = some "") →
        objGet (EquipmentForm.init (some d)).formData t.1 = some t.2.2)) ∧
    (∀ t ∈ [("area", ""), ("equipment_type", "cpu"), ("nombre_pc", ""), ("marca", ""),
            ("modelo", ""), ("serie", ""), ("tipo_mantenimiento", "preventivo"),
            ("observaciones", ""), ("estado_equipo", "operativo")],
      objGet (EquipmentForm.init none).formData t.1 = some t.2) ∧
    (EquipmentForm.init (some d)).formData.map (·.1)
      = ["area", "equipment_type", "nombre_pc", "marca", "modelo", "serie",
         "tipo_mantenimiento", "observaciones", "estado_equipo"] ∧
    (EquipmentForm.init none).formData.map (·.1)
      = ["area", "equipment_type", "nombre_pc", "marca", "modelo", "serie",
         "tipo_mantenimiento", "observaciones", "estado_equipo"] ∧
    (EquipmentForm.init (some d)).loading = false ∧
    (EquipmentForm.init (some d)).error = "" := by
  refine ⟨?_, by decide, rfl, rfl, rfl, rfl⟩
  intro t ht
  simp only [List.mem_cons, List.mem_singleton, List.not_mem_nil, or_false] at ht
  rcases ht with rfl | rfl | rfl | rfl | rfl | rfl | rfl | rfl | rfl <;>
    refine ⟨?_, ?_⟩ <;>
    first
    | (intro v hv hne
       dsimp only at hv
       simp [EquipmentForm.init, EquipmentForm.initFormData, objGet, jsOr, hv, hne])
    | (intro h
       dsimp only at h
       rcases h with h | h <;>
         simp [EquipmentForm.init, EquipmentForm.initFormData, objGet, jsOr, h])


/-- Witness of C22: the form opened on `pcSistemas` starts with its area, and with the
default for its observaciones, which the record does not have. -/
theorem EquipmentForm_init_from_initialData_witness :
    objGet (EquipmentForm.init (some pcSistemas)).formData "area" = some "Sistemas" ∧
    objGet (EquipmentForm.init (some pcSistemas)).formData "observaciones" = some "" :=
  ⟨((EquipmentForm_init_from_initialData pcSistemas).1
      ("area", pcSistemas.area, "") (by decide)).1 "Sistemas" rfl (by decide),
   ((EquipmentForm_init_from_initialData pcSistemas).1
      ("observaciones", pcSistemas.observaciones, "") (by decide)).2 (Or.inl rfl)⟩

/-- Without a `fecha` property in `formData`, a click on the submit button has no effect
on the outside world. -/
theorem EquipmentForm_submit_no_fecha (BACKEND_URL : String) (initialData : Option Equipment)
    (s : EFState) (dateParse : String → Option String) (resp : Except AxiosError Unit)
    (h : objGet s.formData "fecha" = none) :
    (EquipmentForm.step BACKEND_URL initialData s (.submit dateParse resp)).effects = [] := by
  unfold EquipmentForm.step
  split
  · simp only [EquipmentForm.submitForm]
    cases firstMissing (EquipmentForm.requiredInputs s.formData) with
    | some _ => rfl
    | none =>
      simp [EquipmentForm_handleSubmit_no_fecha BACKEND_URL initialData s dateParse resp h]
  · rfl

/-- On the page just loaded, opening the creation form and submitting a form state without
a `fecha` property sends nothing beyond the list request of the mounting, and the form
stays open. -/
theorem EquipmentList_create_submit_no_fecha (BACKEND_URL : String) (user : Option Account)
    (list list2 : Except AxiosError (List Equipment)) (child : EFState)
    (dateParse : String → Option String) (resp : Except AxiosError Unit)
    (h : objGet child.formData "fecha" = none) :
    requestsOf (EquipmentList.session BACKEND_URL user list
        [.newEquipment, .form child (.submit dateParse resp) list2]).effects
      = [listEquipmentRequest BACKEND_URL] ∧
    (EquipmentList.session BACKEND_URL user list
        [.newEquipment, .form child (.submit dateParse resp) list2]).state.showForm = true ∧
    (EquipmentList.session BACKEND_URL user list
        [.newEquipment, .form child (.submit dateParse resp) list2]).state.editingEquipment
      = none := by
  have hsub := EquipmentForm_submit_no_fecha BACKEND_URL none child dateParse resp h
  cases list <;>
    simp [EquipmentList.session, EquipmentList.run, EquipmentList.step, EquipmentList.offered,
      EquipmentList.formEvent, fetchEquipment, ELState.init, hsub, requestsOf, callsOf]

/-- C7, the code at the failing input: whoever the caller is, admin or not, after the page
has loaded, the creation form has been opened with the new-equipment button and filled in
through its own controls in any way, submitting it sends no request: the only request of
the whole session is the list request of the mounting, no `POST /equipment` with any data
is among them, and the form stays open on the creation of a record. So it is for the
standard user `userLuis` and for the administrator `adminAna` with the four required
inputs filled in and a backend that would accept. Creating a record is available to no
caller. -/
theorem EquipmentList_create_never_posts (BACKEND_URL : String) (user : Option Account)
    (list list2 : Except AxiosError (List Equipment)) (evs : List EFEvent)
    (dateParse : String → Option String) (resp : Except AxiosError Unit) :
    requestsOf (EquipmentList.session BACKEND_URL user list
        [.newEquipment,
         .form (EquipmentForm.run BACKEND_URL none (EquipmentForm.init none) evs).state
           (.submit dateParse resp) list2]).effects
      = [listEquipmentRequest BACKEND_URL] ∧
    (∀ submitData, createEquipmentRequest BACKEND_URL submitData ∉
      requestsOf (EquipmentList.session BACKEND_URL user list
        [.newEquipment,
         .form (EquipmentForm.run BACKEND_URL none (EquipmentForm.init none) evs).state
           (.submit dateParse resp) list2]).effects) ∧
    (EquipmentList.session BACKEND_URL user list
        [.newEquipment,
         .form (EquipmentForm.run BACKEND_URL none (EquipmentForm.init none) evs).state
           (.submit dateParse resp) list2]).state.showForm = true ∧
    (EquipmentList.session BACKEND_URL user list
        [.newEquipment,
         .form (EquipmentForm.run BACKEND_URL none (EquipmentForm.init none) evs).state
           (.submit dateParse resp) list2]).state.editingEquipment = none ∧
    firstMissing (EquipmentForm.requiredInputs filledCreateForm.formData) = none ∧
    requestsOf (EquipmentList.session "http://h" (some userLuis) (.ok [pcSistemas])
        [.newEquipment, .form filledCreateForm (.submit dateParse (.ok ()))
          (.ok [pcSistemas])]).effects
      = [listEquipmentRequest "http://h"] ∧
    requestsOf (EquipmentList.session "http://h" (some adminAna) (.ok [pcSistemas])
        [.newEquipment, .form filledCreateForm (.submit dateParse (.ok ()))
          (.ok [pcSistemas])]).effects
      = [listEquipmentRequest "http://h"] := by
  have hreach := (EquipmentForm_run_no_fecha BACKEND_URL none evs (EquipmentForm.init none)
    (EquipmentForm_init_no_fecha none)).1
  have hgen := EquipmentList_create_submit_no_fecha BACKEND_URL user list list2 _ dateParse
    resp hreach
  have hfilled : objGet filledCreateForm.formData "fecha" = none := by decide
  refine ⟨hgen.1, ?_, hgen.2.1, hgen.2.2, by decide, ?_, ?_⟩
  · intro submitData hmem
    rw [hgen.1] at hmem
    simp [listEquipmentRequest, createEquipmentRequest] at hmem
  · exact (EquipmentList_create_submit_no_fecha "http://h" (some userLuis) _ _ _ dateParse
      _ hfilled).1
  · exact (EquipmentList_create_submit_no_fecha "http://h" (some adminAna) _ _ _ dateParse
      _ hfilled).1

end Mantenimiento
